import Mathlib

/-!
# ShoppyGlobe: cart ledger and catalog query engine

A shallow embedding of `src/store/cartSlice.jsx`, of `src/store/productsSlice.jsx`,
of `src/utils/currency.js`, of `getPageNumbers` in `src/components/Pagination.jsx`,
and of the handlers of `src/components/CartItem.jsx`, `src/components/ProductItem.jsx`,
`src/components/ProductDetail.jsx`, `src/components/FilterSidebar.jsx` and
`src/Hooks/useProducts.jsx` that dispatch the slices' actions.

Numbers.  JavaScript numbers are embedded as rationals (`ℚ`) where they carry money
and as integers (`Int`) where they carry counts (quantity, stock).  In the cart,
IEEE-754 rounding of `*` and `+` is not part of the model; the explicit decimal
rounding the code performs with `toFixed(2)` is.  In `fetchProducts` the price
normalization is embedded to the double: `toDouble` gives the double nearest to a
rational, the division by 10 is rounded as IEEE division is, and the decimal string
the list path stores (`"1.00"`) is embedded as the double it converts to, which is
what `parseFloat`, `-`, `>=` and `<=` see.

State.  Redux-toolkit reducers mutate an Immer draft; each reducer is embedded
as a pure function from the old state and the payload to the new state.
-/

namespace ShoppyGlobe

/-! ## Numbers -/

/-- The value of `parseFloat(x)` for a finite number or the decimal string of one. -/
def parseFloat (x : ℚ) : ℚ := x

/-- The value of `Number(x.toFixed(2))`: the multiple of 1/100 nearest to `x`; of two equally
near candidates the one larger in magnitude (ECMAScript `Number.prototype.toFixed`
treats a negative `x` as `-((-x).toFixed(2))` and picks the larger `n`). -/
def toFixed2 (x : ℚ) : ℚ :=
  if x < 0 then -((Rat.floor (-x * 100 + 1 / 2) : ℚ) / 100)
  else (Rat.floor (x * 100 + 1 / 2) : ℚ) / 100

/-- The integer nearest to `q`, the even one of two equally near: the rounding of the
IEEE-754 default mode. -/
def roundHalfEven (q : ℚ) : Int :=
  let f := Rat.floor q
  let r := q - (f : ℚ)
  if r < 1 / 2 then f else if r > 1 / 2 then f + 1 else if f % 2 = 0 then f else f + 1

/-- The binary exponent of the double nearest to `x ≠ 0`: the `e` with
`2^e ≤ |x| < 2^(e+1)`, and `-1022` below the normal range. -/
def binaryExponent (x : ℚ) : Int := max (Int.log 2 |x|) (-1022)

/-- The double (IEEE-754 binary64, 53 significant bits, round to nearest, ties to
even) nearest to `x`, as the rational it is: what a numeric literal, `Number(string)`
or the exact result of `/` becomes.  Overflow to `Infinity`, above `2^1024`, is left
out. -/
def toDouble (x : ℚ) : ℚ :=
  if x = 0 then 0
  else
    let ulp : ℚ := (2 : ℚ) ^ (binaryExponent x - 52)
    (if x < 0 then -1 else 1) * ((roundHalfEven (|x| / ulp) : Int) : ℚ) * ulp

/-! ## Data model -/

/-- A product object as the display layer hands it to `addToCart`.  `quantity`
is present only on the payload built by `ProductDetail.handleAddToCart`
(`{ ...product, quantity }`); `ProductItem` dispatches the bare product. -/
structure Product where
  id : Nat
  title : String
  category : String
  price : ℚ
  rating : ℚ
  stock : Int
  thumbnail : String
  quantity : Option Int
  deriving DecidableEq

/-- A cart line item, as pushed by `addToCart`. -/
structure CartItem where
  id : Nat
  title : String
  price : ℚ
  thumbnail : String
  quantity : Int
  totalPrice : ℚ
  stock : Int
  deriving DecidableEq

/-- The `cart` slice state. -/
structure CartState where
  items : List CartItem
  totalQuantity : Int
  totalAmount : ℚ
  loading : Bool
  error : Option String
  deriving DecidableEq

/-- The constant `initialState` of `cartSlice`. -/
def initialState : CartState :=
  { items := [], totalQuantity := 0, totalAmount := 0, loading := false, error := none }

/-- In-place mutation of the element `Array.prototype.find` returns: the first
element satisfying `p` is replaced by `f` of it, all others stay where they are. -/
def modifyFirst {α : Type} (p : α → Bool) (f : α → α) : List α → List α
  | [] => []
  | x :: xs => if p x then f x :: xs else x :: modifyFirst p f xs

/-- The reduction `state.items.reduce((total, item) => total + item.quantity, 0)`. -/
def sumQuantity (items : List CartItem) : Int :=
  items.foldl (fun total item => total + item.quantity) 0

/-- The reduction `state.items.reduce((total, item) => total + item.totalPrice, 0)`. -/
def sumTotalPrice (items : List CartItem) : ℚ :=
  items.foldl (fun total item => total + item.totalPrice) 0

/-! ## Cart reducers -/

/-- Reducer `setLoading`. -/
def setLoading (state : CartState) (payload : Bool) : CartState :=
  { state with loading := payload }

/-- Reducer `setError`. -/
def setError (state : CartState) (payload : Option String) : CartState :=
  { state with error := payload, loading := false }

/-- Reducer `addToCart`.  The payload's own `quantity` field is never read. -/
def addToCart (state : CartState) (newItem : Product) : CartState :=
  let existingItem := state.items.find? (fun item => item.id == newItem.id)
  let price := toFixed2 (parseFloat newItem.price)
  let items :=
    match existingItem with
    | some _ =>
      modifyFirst (fun item => item.id == newItem.id)
        (fun e => { e with quantity := e.quantity + 1,
                           totalPrice := toFixed2 (price * ((e.quantity + 1 : Int) : ℚ)) })
        state.items
    | none =>
      state.items ++
        [{ id := newItem.id, title := newItem.title, price := price,
           thumbnail := newItem.thumbnail, quantity := 1, totalPrice := price,
           stock := newItem.stock }]
  { items := items, totalQuantity := sumQuantity items, totalAmount := sumTotalPrice items,
    loading := false, error := none }

/-- Reducer `removeFromCart`. -/
def removeFromCart (state : CartState) (id : Nat) : CartState :=
  match state.items.find? (fun item => item.id == id) with
  | some _ =>
    let items := state.items.filter (fun item => item.id != id)
    { state with items := items, totalQuantity := sumQuantity items,
                 totalAmount := sumTotalPrice items, loading := false }
  | none => { state with loading := false }

/-- Reducer `updateQuantity`, payload `{ id, quantity }`. -/
def updateQuantity (state : CartState) (id : Nat) (quantity : Int) : CartState :=
  match state.items.find? (fun item => item.id == id) with
  | some _ =>
    let items :=
      modifyFirst (fun item => item.id == id)
        (fun item => { item with quantity := quantity,
                                 totalPrice := item.price * (quantity : ℚ) })
        state.items
    { state with items := items, totalQuantity := sumQuantity items,
                 totalAmount := sumTotalPrice items, loading := false }
  | none => { state with loading := false }

/-- Reducer `clearCart`. -/
def clearCart (_state : CartState) : CartState :=
  { items := [], totalQuantity := 0, totalAmount := 0, loading := false, error := none }

/-- The actions `cartSlice.actions` exports. -/
inductive CartAction where
  | setLoading (payload : Bool)
  | setError (payload : Option String)
  | addToCart (payload : Product)
  | removeFromCart (payload : Nat)
  | updateQuantity (id : Nat) (quantity : Int)
  | clearCart

/-- The slice reducer `cartSlice.reducer`: one action applied to one state. -/
def cartReducer (state : CartState) : CartAction → CartState
  | .setLoading b => setLoading state b
  | .setError e => setError state e
  | .addToCart p => addToCart state p
  | .removeFromCart id => removeFromCart state id
  | .updateQuantity id q => updateQuantity state id q
  | .clearCart => clearCart state

/-- The state reached from `initialState` by dispatching `actions` in order. -/
def runCart (actions : List CartAction) : CartState :=
  actions.foldl cartReducer initialState

/-- The handler `CartItem.handleQuantityChange(newQuantity)` of the rendered line `item`:
the `updateQuantity` action is dispatched only inside the guard. -/
def handleQuantityChange (item : CartItem) (newQuantity : Int) (state : CartState) : CartState :=
  if newQuantity ≥ 1 ∧ newQuantity ≤ item.stock then
    updateQuantity state item.id newQuantity
  else state

/-! ## Products slice -/

/-- The `products` slice state. -/
structure ProductsState where
  products : List Product
  currentProduct : Option Product
  categories : List String
  searchTerm : String
  selectedCategory : String
  currentPage : Int
  totalPages : Int
  totalProducts : Int
  limit : Int
  loading : Bool
  error : Option String
  productLoading : Bool
  productError : Option String
  categoriesLoading : Bool
  hasSearched : Bool
  sortBy : String
  priceRange : ℚ × ℚ
  deriving DecidableEq

/-- The constant `initialState` of `productsSlice`. -/
def productsInitialState : ProductsState :=
  { products := [], currentProduct := none, categories := [], searchTerm := "",
    selectedCategory := "", currentPage := 1, totalPages := 1, totalProducts := 0, limit := 20,
    loading := false, error := none, productLoading := false, productError := none,
    categoriesLoading := false, hasSearched := false, sortBy := "relevance",
    priceRange := (0, 200) }

/-- The price `(product.price / 10).toFixed(2)` of line 21: the gateway's price is a
double, `/` is the IEEE division, `toFixed(2)` rounds the exact value of the
quotient's double, and the resulting decimal string is embedded as the double it
converts to wherever the code uses it as a number (`>=`, `<=`, `-`,
`parseFloat`). -/
def normalizedPrice (price : ℚ) : ℚ :=
  toDouble (toFixed2 (toDouble (toDouble price / 10)))

/-- The first step of the `fetchProducts` thunk after the gateway answers:
`response.data.products.map(product => ({ ...product, price: (product.price / 10).toFixed(2) }))`. -/
def normalizeProducts (responseProducts : List Product) : List Product :=
  responseProducts.map (fun product => { product with price := normalizedPrice product.price })

/-- The `fetchProductById` thunk once the gateway has answered: `return response.data`. -/
def fetchProductById (responseData : Product) : Product := responseData

/-- The extra reducer for `fetchProductById.fulfilled`. -/
def fetchProductByIdFulfilled (state : ProductsState) (payload : Product) : ProductsState :=
  { state with productLoading := false, currentProduct := some payload }

/-- The gateway record with native price 9.99. -/
def mugRecord : Product :=
  { id := 1, title := "Mug", category := "kitchen", price := 999 / 100, rating := 4, stock := 5,
    thumbnail := "mug.png", quantity := none }

/-! ## Strings -/

/-- The code points ECMAScript counts as WhiteSpace or LineTerminator, which
`String.prototype.trim` strips. -/
def isWhiteSpace (c : Char) : Bool :=
  c.val == 0x09 || c.val == 0x0A || c.val == 0x0B || c.val == 0x0C || c.val == 0x0D ||
  c.val == 0x20 || c.val == 0xA0 || c.val == 0x1680 ||
  (0x2000 ≤ c.val && c.val ≤ 0x200A) ||
  c.val == 0x2028 || c.val == 0x2029 || c.val == 0x202F || c.val == 0x205F ||
  c.val == 0x3000 || c.val == 0xFEFF

/-- The method `String.prototype.trim`. -/
def trim (s : String) : String :=
  String.mk (((s.data.dropWhile isWhiteSpace).reverse.dropWhile isWhiteSpace).reverse)

/-- The method `String.prototype.toLowerCase` restricted to strings of ASCII
characters, on which it lowers `A`-`Z` and nothing else.  The method itself is the
platform's (Unicode case conversion) and is a parameter `lower` of the
definitions that call it; this instance serves the concrete scenarios, whose
labels are ASCII. -/
def asciiToLowerCase (s : String) : String :=
  String.mk (s.data.map Char.toLower)

/-! ## The `fetchProducts` thunk -/

/-- The URL `fetchProducts` requests: the bulk listing
`/products?limit=100` or the text search `/products/search?q=...`. -/
inductive GatewayRequest where
  | listing (limit : Nat)
  | search (q : String)
  deriving DecidableEq

/-- The `filters` object of a `fetchProducts` call; a field the caller leaves out
is `none`. -/
structure Filters where
  category : Option String
  priceRange : Option (ℚ × ℚ)
  sortBy : Option String
  deriving DecidableEq

/-- The argument object of `fetchProducts`, with the defaults of its destructuring
pattern `{ page = 1, limit = 20, search = '', filters = {} }`. -/
structure FetchArgs where
  page : Int := 1
  limit : Int := 20
  search : String := ""
  filters : Filters := { category := none, priceRange := none, sortBy := none }

/-- The value a fulfilled `fetchProducts` returns. -/
structure FetchPayload where
  products : List Product
  total : Int
  currentPage : Int
  limit : Int
  search : String
  appliedFilters : Filters
  deriving DecidableEq

/-- Lines 10-15 of `fetchProducts`: the search endpoint when `search.trim()` is a
non-empty string, else the bulk listing with `limit=100`. -/
def requestUrl (search : String) : GatewayRequest :=
  if trim search ≠ "" then .search search else .listing 100

/-- Lines 25-29 of `fetchProducts`: the category filter, applied when
`filters.category` is a non-empty string; `lower` is the platform's
`String.prototype.toLowerCase`. -/
def applyCategoryFilter (lower : String → String) (filters : Filters)
    (products : List Product) : List Product :=
  match filters.category with
  | some category =>
    if category ≠ "" then
      products.filter (fun product => lower product.category == lower category)
    else products
  | none => products

/-- Lines 32-37 of `fetchProducts`: the price range filter, applied when
`filters.priceRange` is present.  The two bounds are JavaScript numbers, read as
doubles. -/
def applyPriceRangeFilter (filters : Filters) (products : List Product) : List Product :=
  match filters.priceRange with
  | some priceRange =>
    products.filter (fun product =>
      decide (product.price ≥ toDouble priceRange.1) &&
        decide (product.price ≤ toDouble priceRange.2))
  | none => products

/-- The comparator handed to `products.sort` (lines 41-55). -/
def compareProducts (sortBy : String) (a b : Product) : ℚ :=
  if sortBy = "price-low" then a.price - b.price
  else if sortBy = "price-high" then b.price - a.price
  else if sortBy = "rating" then b.rating - a.rating
  else if sortBy = "newest" then (b.id : ℚ) - (a.id : ℚ)
  else 0

/-- The method `Array.prototype.sort(compareFn)`: ECMAScript requires the sort to be
stable, so for a consistent comparator the result is the one ordering in which
`a` stays ahead of `b` unless `compareFn(a, b) > 0`; insertion sort computes it. -/
def jsSort {α : Type} (compareFn : α → α → ℚ) (l : List α) : List α :=
  l.insertionSort (fun a b => compareFn a b ≤ 0)

/-- Lines 40-56 of `fetchProducts`: the sort, applied when `filters.sortBy` is a
non-empty string other than `'relevance'`. -/
def applySort (filters : Filters) (products : List Product) : List Product :=
  match filters.sortBy with
  | some sortBy =>
    if sortBy ≠ "" ∧ sortBy ≠ "relevance" then jsSort (compareProducts sortBy) products
    else products
  | none => products

/-- The method `Array.prototype.slice(start, end)`, negative indices counting from
the end of the array. -/
def jsSlice {α : Type} (l : List α) (start stop : Int) : List α :=
  let len : Int := l.length
  let k := if start < 0 then max (len + start) 0 else min start len
  let final := if stop < 0 then max (len + stop) 0 else min stop len
  (l.drop k.toNat).take (final - k).toNat

/-- The filtered records of `fetchProducts`: the gateway's records normalized, then
filtered by category and by price range (lines 18-37). -/
def filteredProducts (lower : String → String) (filters : Filters)
    (responseProducts : List Product) : List Product :=
  applyPriceRangeFilter filters
    (applyCategoryFilter lower filters (normalizeProducts responseProducts))

/-- The sequence `fetchProducts` paginates: the filtered records, sorted (lines 18-56). -/
def queryProducts (lower : String → String) (filters : Filters)
    (responseProducts : List Product) : List Product :=
  applySort filters (filteredProducts lower filters responseProducts)

/-- The message of a rejection: `error.response?.data?.message || fallback`. -/
def rejectionMessage (message : Option String) (fallback : String) : String :=
  match message with
  | some m => if m ≠ "" then m else fallback
  | none => fallback

/-- The `fetchProducts` thunk.  The gateway is a parameter: it answers a request
with the product records of `response.data.products` or fails, the failure
carrying `error.response?.data?.message` if there is one.  The platform's
`String.prototype.toLowerCase` is the parameter `lower`. -/
def fetchProducts (lower : String → String)
    (gateway : GatewayRequest → Except (Option String) (List Product))
    (args : FetchArgs) : Except String FetchPayload :=
  match gateway (requestUrl args.search) with
  | .ok responseProducts =>
    let products := queryProducts lower args.filters responseProducts
    let total : Int := products.length
    let start := (args.page - 1) * args.limit
    let paginatedProducts := jsSlice products start (start + args.limit)
    .ok { products := paginatedProducts, total := total, currentPage := args.page,
          limit := args.limit, search := args.search, appliedFilters := args.filters }
  | .error message => .error (rejectionMessage message "Failed to fetch products")

/-! ## Products reducers -/

/-- Reducer `setSearchTerm`. -/
def setSearchTerm (state : ProductsState) (payload : String) : ProductsState :=
  { state with searchTerm := payload, currentPage := 1 }

/-- Reducer `setSelectedCategory`. -/
def setSelectedCategory (state : ProductsState) (payload : String) : ProductsState :=
  { state with selectedCategory := payload, currentPage := 1 }

/-- Reducer `setCurrentPage`. -/
def setCurrentPage (state : ProductsState) (payload : Int) : ProductsState :=
  { state with currentPage := payload }

/-- Reducer `setSortBy`. -/
def setSortBy (state : ProductsState) (payload : String) : ProductsState :=
  { state with sortBy := payload, currentPage := 1 }

/-- Reducer `setPriceRange`. -/
def setPriceRange (state : ProductsState) (payload : ℚ × ℚ) : ProductsState :=
  { state with priceRange := payload, currentPage := 1 }

/-- Reducer `clearFilters`. -/
def clearFilters (state : ProductsState) : ProductsState :=
  { state with searchTerm := "", selectedCategory := "", sortBy := "relevance",
               priceRange := (0, 2000), currentPage := 1, hasSearched := false }

/-- Reducer `clearCurrentProduct`. -/
def clearCurrentProduct (state : ProductsState) : ProductsState :=
  { state with currentProduct := none, productError := none }

/-- Reducer `clearError`. -/
def clearError (state : ProductsState) : ProductsState :=
  { state with error := none, productError := none }

/-- The function `Math.ceil` on a quotient of two integers with a divisor other than
0 (`fetchProducts` is called with `limit` 20). -/
def mathCeilDiv (a b : Int) : Int := Int.ceil ((a : ℚ) / (b : ℚ))

/-- The extra reducer for `fetchProducts.fulfilled`. -/
def fetchProductsFulfilled (state : ProductsState) (payload : FetchPayload) : ProductsState :=
  { state with loading := false, products := payload.products, totalProducts := payload.total,
               currentPage := payload.currentPage,
               totalPages := mathCeilDiv payload.total payload.limit,
               hasSearched := decide (payload.search ≠ "") }

/-- The query actions the claims range over, as `productsSlice.actions` exports them. -/
inductive QueryAction where
  | setSearchTerm (payload : String)
  | setSelectedCategory (payload : String)
  | setSortBy (payload : String)
  | setCurrentPage (payload : Int)
  | clearFilters
  | setPriceRange (payload : ℚ × ℚ)

/-- The slice reducer of `productsSlice` on the query actions. -/
def queryReducer (state : ProductsState) : QueryAction → ProductsState
  | .setSearchTerm t => setSearchTerm state t
  | .setSelectedCategory c => setSelectedCategory state c
  | .setSortBy k => setSortBy state k
  | .setCurrentPage n => setCurrentPage state n
  | .clearFilters => clearFilters state
  | .setPriceRange r => setPriceRange state r

/-- The state reached from the initial products state by dispatching `actions` in order. -/
def runQuery (actions : List QueryAction) : ProductsState :=
  actions.foldl queryReducer productsInitialState

/-- The callback `changePage(page)` of `useProducts`, `totalPages` being the value
selected from the state it acts on. -/
def changePage (state : ProductsState) (page : Int) : ProductsState :=
  if page ≥ 1 ∧ page ≤ state.totalPages then setCurrentPage state page else state

/-- The extra reducer for `fetchProducts.pending`. -/
def fetchProductsPending (state : ProductsState) : ProductsState :=
  { state with loading := true, error := none }

/-- The extra reducer for `fetchProducts.rejected`; `payload` is the value given to
`rejectWithValue`, absent when the thunk was rejected without one. -/
def fetchProductsRejected (state : ProductsState) (payload : Option String) : ProductsState :=
  { state with loading := false,
               error := some (rejectionMessage payload "Something went wrong") }

/-! ## Category cache -/

/-- The `fetchCategories` thunk, the gateway's answer being a parameter: the
category list of `response.data`, or the fixed rejection value. -/
def fetchCategories (gateway : Except (Option String) (List String)) :
    Except String (List String) :=
  match gateway with
  | .ok responseData => .ok responseData
  | .error _ => .error "Failed to fetch categories"

/-- The extra reducer for `fetchCategories.pending`. -/
def fetchCategoriesPending (state : ProductsState) : ProductsState :=
  { state with categoriesLoading := true }

/-- The extra reducer for `fetchCategories.fulfilled`. -/
def fetchCategoriesFulfilled (state : ProductsState) (payload : List String) : ProductsState :=
  { state with categoriesLoading := false, categories := payload }

/-- The extra reducer for `fetchCategories.rejected`. -/
def fetchCategoriesRejected (state : ProductsState) : ProductsState :=
  { state with categoriesLoading := false }

/-- The guard of the effect "Fetch categories on mount" in `useProducts`:
`categories.length === 0`. -/
def dispatchesFetchCategories (state : ProductsState) : Bool :=
  state.categories.length == 0

/-- The effect "Fetch categories on mount" in `useProducts`, run to completion: when
the guard holds, `fetchCategories` is dispatched (pending, then fulfilled or
rejected); otherwise nothing is dispatched. -/
def fetchCategoriesOnMount (state : ProductsState)
    (gateway : Except (Option String) (List String)) : ProductsState :=
  if dispatchesFetchCategories state then
    match fetchCategories gateway with
    | .ok payload => fetchCategoriesFulfilled (fetchCategoriesPending state) payload
    | .error _ => fetchCategoriesRejected (fetchCategoriesPending state)
  else state

/-! ## Handlers of the display layer -/

/-- The callback `resetFilters` of `useProducts`. -/
def resetFilters (state : ProductsState) : ProductsState :=
  clearFilters state

/-- The callback `changePriceRange(range)` of `useProducts`: `setPriceRange(range)`,
then `setCurrentPage(1)`. -/
def changePriceRange (state : ProductsState) (range : ℚ × ℚ) : ProductsState :=
  setCurrentPage (setPriceRange state range) 1

/-- The handler `FilterSidebar.handleClearAllFilters`, with `onClearFilters` bound to
`resetFilters` and `onPriceRangeChange` to `changePriceRange` as `ProductList`
binds them. -/
def handleClearAllFilters (state : ProductsState) : ProductsState :=
  let defaultPriceRange : ℚ × ℚ := (0, 200)
  changePriceRange (resetFilters state) defaultPriceRange

/-- The handler `ProductDetail.handleAddToCart`: nothing is dispatched without a
product or with `quantity <= 0`; otherwise `addToCart({ ...product, quantity })`. -/
def ProductDetail.handleAddToCart (product : Option Product) (quantity : Int)
    (state : CartState) : CartState :=
  match product with
  | none => state
  | some p => if quantity ≤ 0 then state else addToCart state { p with quantity := some quantity }

/-- The handler `ProductItem.handleAddToCart`: nothing is dispatched for a product
with `stock === 0`; otherwise `addToCart(product)`. -/
def ProductItem.handleAddToCart (product : Product) (state : CartState) : CartState :=
  if product.stock = 0 then state else addToCart state product

/-! ## Pagination control -/

/-- An entry of the list `Pagination.getPageNumbers` builds: a page number or the
string `'...'`. -/
inductive PageEntry where
  | page (n : Int)
  | dots
  deriving DecidableEq

/-- The loop `for (let i = rangeStart; i <= rangeEnd; i++)` of `getPageNumbers`,
from `i` on, with the number of iterations still to run. -/
def pageLoop (totalPages : Int) (i : Int) : Nat → List PageEntry
  | 0 => []
  | n + 1 =>
    (if i ≠ 1 ∧ i ≠ totalPages then [PageEntry.page i] else []) ++ pageLoop totalPages (i + 1) n

/-- The function `getPageNumbers` of `Pagination`. -/
def getPageNumbers (currentPage totalPages : Int) : List PageEntry :=
  let delta : Int := 2
  let rangeStart := max 2 (currentPage - delta)
  let rangeEnd := min (totalPages - 1) (currentPage + delta)
  (if totalPages > 1 then [PageEntry.page 1] else []) ++
  (if rangeStart > 2 then [PageEntry.dots] else []) ++
  pageLoop totalPages rangeStart (rangeEnd - rangeStart + 1).toNat ++
  (if rangeEnd < totalPages - 1 then [PageEntry.dots] else []) ++
  (if totalPages > 1 then [PageEntry.page totalPages] else [])

/-- The page numbers among the entries, in order. -/
def numericEntries : List PageEntry → List Int
  | [] => []
  | .page n :: rest => n :: numericEntries rest
  | .dots :: rest => numericEntries rest

/-- The rendering of a list of page numbers in which a `'...'` marker stands between
two consecutive numbers exactly when they differ by more than 1. -/
def withGaps : List Int → List PageEntry
  | [] => []
  | [a] => [.page a]
  | a :: b :: rest =>
    .page a :: ((if b - a > 1 then [PageEntry.dots] else []) ++ withGaps (b :: rest))

/-- The consecutive integers `i, i + 1, ...`, `n` of them. -/
def intsFrom (i : Int) : Nat → List Int
  | 0 => []
  | n + 1 => i :: intsFrom (i + 1) n

/-! ## Currency formatter -/

/-- A JavaScript number as `formatPrice` can receive it: a finite value, NaN, or one
of the two infinities. -/
inductive JsNumber where
  | finite (x : ℚ)
  | nan
  | posInfinity
  | negInfinity
  deriving DecidableEq

/-- The argument of `formatPrice`: `null`, `undefined`, or a number. -/
inductive Amount where
  | null
  | undefined
  | number (n : JsNumber)
  deriving DecidableEq

/-- The test `!amount`: true for `null`, `undefined`, NaN and 0. -/
def isFalsy : Amount → Bool
  | .null => true
  | .undefined => true
  | .number .nan => true
  | .number (.finite x) => decide (x = 0)
  | .number .posInfinity => false
  | .number .negInfinity => false

/-- The test `amount === 0`. -/
def isZero : Amount → Bool
  | .number (.finite x) => decide (x = 0)
  | _ => false

/-- The conversion `Number(amount)`. -/
def toNumber : Amount → JsNumber
  | .null => .finite 0
  | .undefined => .nan
  | .number n => n

/-- The function `isNaN` on a number. -/
def isNaN : JsNumber → Bool
  | .nan => true
  | _ => false

/-- The function `formatPrice` of `utils/currency.js`; `format` is the `format` method
of the `Intl.NumberFormat` instance it builds. -/
def formatPrice (format : JsNumber → String) (amount : Amount) : String :=
  if isFalsy amount && !(isZero amount) then "$0.00"
  else
    let numAmount := toNumber amount
    if isNaN numAmount then "$0.00" else format numAmount

/-- The decimal digits of `n`, most significant first (`fuel` bounds the number of
digits). -/
def natDigits : Nat → Nat → List Char
  | 0, _ => []
  | fuel + 1, n =>
    if n < 10 then [Nat.digitChar n] else natDigits fuel (n / 10) ++ [Nat.digitChar (n % 10)]

/-- Digits given least significant first, a comma put after every third one that has
a digit following it. -/
def groupReversed : List Char → List Char
  | a :: b :: c :: d :: rest => a :: b :: c :: ',' :: groupReversed (d :: rest)
  | l => l

/-- Modelled from the spec: the platform formatter
`new Intl.NumberFormat('en-US', { style: 'currency', currency: 'USD',
minimumFractionDigits: 2, maximumFractionDigits: 2 }).format`, which `formatPrice`
calls and which is not in the repository; the spec describes its output as USD
currency with exactly two fraction digits (e.g. `$123.45`).  A finite amount is
rounded to cents, ties away from zero, and written with a minus sign if negative,
`$`, the dollars grouped in threes, a point and two cent digits; the infinities
are written with the sign `∞`. -/
def usdFormat : JsNumber → String
  | .nan => "$NaN"
  | .posInfinity => "$∞"
  | .negInfinity => "-$∞"
  | .finite x =>
    let cents := (Rat.floor (|x| * 100 + 1 / 2)).toNat
    let dollars := cents / 100
    String.mk ((if x < 0 then ['-'] else []) ++ ['$'] ++
      (groupReversed (natDigits (dollars + 1) dollars).reverse).reverse ++ ['.'] ++
      [Nat.digitChar (cents % 100 / 10), Nat.digitChar (cents % 100 % 10)])

/-! ## Pages of one query -/

/-- The products of the page `fetchProducts` returns for `page`, page size 20, from a
gateway answering with `records` (no products when the thunk is rejected). -/
def returnedPage (lower : String → String) (records : List Product) (filters : Filters)
    (search : String) (page : Int) : List Product :=
  match fetchProducts lower (fun _ => .ok records)
      { page := page, limit := 20, search := search, filters := filters } with
  | .ok payload => payload.products
  | .error _ => []

/-! ## Invariants -/

/-- The totals stored in the state are the reductions over the current items. -/
def TotalsInSync (s : CartState) : Prop :=
  s.totalQuantity = sumQuantity s.items ∧ s.totalAmount = sumTotalPrice s.items

/-- No two line items carry the same id. -/
def UniqueIds (s : CartState) : Prop := (s.items.map (fun item => item.id)).Nodup

/-- The line item `addToCart` pushes for a product not yet in the cart. -/
def newLine (p : Product) : CartItem :=
  { id := p.id, title := p.title, price := toFixed2 (parseFloat p.price),
    thumbnail := p.thumbnail, quantity := 1, totalPrice := toFixed2 (parseFloat p.price),
    stock := p.stock }

/-! ## Example values -/

/-- A product as the list page holds it: gateway price 9.99 normalized to "1.00". -/
def mugFromList : Product :=
  { id := 1, title := "Mug", category := "kitchen", price := 1, rating := 4, stock := 5,
    thumbnail := "mug.png", quantity := none }

/-- The same product as the detail page holds it: the gateway price 9.99 as received. -/
def mugFromDetail : Product :=
  { id := 1, title := "Mug", category := "kitchen", price := 999 / 100, rating := 4, stock := 5,
    thumbnail := "mug.png", quantity := none }

/-- The detail-page payload `{ ...product, quantity }` with the quantity input at 3. -/
def mugTimesThree : Product :=
  { id := 1, title := "Mug", category := "kitchen", price := 999 / 100, rating := 4, stock := 5,
    thumbnail := "mug.png", quantity := some 3 }

/-- A product of which a single unit is in stock. -/
def lastLamp : Product :=
  { id := 2, title := "Lamp", category := "home", price := 25, rating := 3, stock := 1,
    thumbnail := "lamp.png", quantity := none }

/-- The product of the spec's rounding scenario: id 1, price "9.999". -/
def pen : Product :=
  { id := 1, title := "Pen", category := "office", price := 9999 / 1000, rating := 5, stock := 9,
    thumbnail := "pen.png", quantity := none }

/-- A cart holding one lamp. -/
def lampLine : CartItem :=
  { id := 2, title := "Lamp", price := 25, thumbnail := "lamp.png", quantity := 1,
    totalPrice := 25, stock := 1 }

/-- The cart state with `lampLine` as its only line. -/
def lampCart : CartState :=
  { items := [lampLine], totalQuantity := 1, totalAmount := 25, loading := false, error := none }

/-- A filter object with no field set: nothing is filtered, nothing is sorted. -/
def noFilters : Filters := { category := none, priceRange := none, sortBy := none }

/-- The filter state of the spec's scenario: no category, price range `[0, 20]`. -/
def scenarioFilters (sortBy : String) : Filters :=
  { category := some "", priceRange := some (0, 20), sortBy := some sortBy }

/-- The three gateway records of the spec's filter scenario: native prices 120, 50, 300. -/
def threeRecords : List Product :=
  [{ id := 1, title := "Chair", category := "furniture", price := 120, rating := 4, stock := 3,
     thumbnail := "chair.png", quantity := none },
   { id := 2, title := "Cup", category := "kitchen", price := 50, rating := 5, stock := 8,
     thumbnail := "cup.png", quantity := none },
   { id := 3, title := "Desk", category := "furniture", price := 300, rating := 3, stock := 2,
     thumbnail := "desk.png", quantity := none }]

/-- Forty-five copies of one gateway record. -/
def fortyFiveRecords : List Product := List.replicate 45 mugRecord

/-- A query state whose last result had three pages. -/
def threePageState : ProductsState :=
  { productsInitialState with totalPages := 3, totalProducts := 45 }

/-- A query state on page 2 of 3, showing one product. -/
def pageTwoState : ProductsState :=
  { productsInitialState with products := [mugFromList], currentPage := 2, totalPages := 3,
                              totalProducts := 45 }

/-- The result of a query issued earlier, for page 1 of the search "old", which found nothing. -/
def stalePayload : FetchPayload :=
  { products := [], total := 0, currentPage := 1, limit := 20, search := "old",
    appliedFilters := noFilters }

/-- A cart holding a lamp line and a mug line. -/
def twoLineCart : CartState :=
  { items := [lampLine,
              { id := 1, title := "Mug", price := 1, thumbnail := "mug.png", quantity := 2,
                totalPrice := 2, stock := 5 }],
    totalQuantity := 3, totalAmount := 27, loading := false, error := none }

/-- The detail-page payload `{ ...product, quantity }` with quantity 0. -/
def mugTimesZero : Product :=
  { id := 1, title := "Mug", category := "kitchen", price := 999 / 100, rating := 4, stock := 5,
    thumbnail := "mug.png", quantity := some 0 }

/-- A products state whose category cache holds two labels. -/
def cachedState : ProductsState :=
  { productsInitialState with categories := ["kitchen", "home"] }

/-- The filter state selecting 'FURNITURE' in upper case, price range `[12, 30]`. -/
def furnitureFilters : Filters :=
  { category := some "FURNITURE", priceRange := some (12, 30), sortBy := some "relevance" }

/-- The filter state selecting 'Kitchen' with a capital, price range `[0, 200]`. -/
def kitchenFilters : Filters :=
  { category := some "Kitchen", priceRange := some (0, 200), sortBy := some "relevance" }

/-- A gateway record labelled 'Home Decor' with native price 26.75. -/
def vaseRecord : Product :=
  { id := 7, title := "Vase", category := "Home Decor", price := 107 / 4, rating := 4,
    stock := 6, thumbnail := "vase.png", quantity := none }

/-- The filter state selecting 'home decor', price range `[0.02, 2.67]`. -/
def vaseFilters : Filters :=
  { category := some "home decor", priceRange := some (2 / 100, 267 / 100),
    sortBy := some "relevance" }

/-! ## Supporting lemmas -/

theorem toFixed2_cents (k : Int) : toFixed2 ((k : ℚ) / 100) = (k : ℚ) / 100 := by
  have hfl : ∀ m : Int, Rat.floor ((m : ℚ) + 1 / 2) = m := by
    intro m
    show ⌊(m : ℚ) + 1 / 2⌋ = m
    rw [Int.floor_eq_iff]
    constructor <;> norm_num
  unfold toFixed2
  split
  · have h1 : -((k : ℚ) / 100) * 100 + 1 / 2 = ((-k : Int) : ℚ) + 1 / 2 := by
      push_cast; ring
    rw [h1, hfl]; push_cast; ring
  · have h1 : (k : ℚ) / 100 * 100 + 1 / 2 = (k : ℚ) + 1 / 2 := by ring
    rw [h1, hfl]

theorem toFixed2_is_cents (x : ℚ) : ∃ k : Int, toFixed2 x = (k : ℚ) / 100 := by
  unfold toFixed2
  split
  · exact ⟨-Rat.floor (-x * 100 + 1 / 2), by push_cast; ring⟩
  · exact ⟨Rat.floor (x * 100 + 1 / 2), rfl⟩

theorem toFixed2_mul_int (x : ℚ) (m : Int) :
    toFixed2 (toFixed2 x * (m : ℚ)) = toFixed2 x * (m : ℚ) := by
  obtain ⟨k, hk⟩ := toFixed2_is_cents x
  have h : toFixed2 x * (m : ℚ) = ((k * m : Int) : ℚ) / 100 := by
    rw [hk]; push_cast; ring
  rw [h, toFixed2_cents]

theorem sumQuantity_eq_sum (items : List CartItem) :
    sumQuantity items = (items.map (fun item => item.quantity)).sum := by
  unfold sumQuantity
  rw [List.sum_eq_foldl, List.foldl_map]

theorem sumTotalPrice_eq_sum (items : List CartItem) :
    sumTotalPrice items = (items.map (fun item => item.totalPrice)).sum := by
  unfold sumTotalPrice
  rw [List.sum_eq_foldl, List.foldl_map]

theorem totalsInSync_initial : TotalsInSync initialState := by
  simp [TotalsInSync, initialState, sumQuantity, sumTotalPrice]

theorem totalsInSync_step (s : CartState) (a : CartAction) (h : TotalsInSync s) :
    TotalsInSync (cartReducer s a) := by
  cases a with
  | setLoading b => exact h
  | setError e => exact h
  | addToCart p => exact ⟨rfl, rfl⟩
  | removeFromCart id =>
    simp only [cartReducer, removeFromCart]
    split
    · exact ⟨rfl, rfl⟩
    · exact h
  | updateQuantity id q =>
    simp only [cartReducer, updateQuantity]
    split
    · exact ⟨rfl, rfl⟩
    · exact h
  | clearCart => simp [cartReducer, clearCart, TotalsInSync, sumQuantity, sumTotalPrice]

theorem foldl_invariant (P : CartState → Prop) (ok : CartAction → Prop)
    (step : ∀ s a, ok a → P s → P (cartReducer s a)) :
    ∀ (actions : List CartAction) (s : CartState), (∀ a ∈ actions, ok a) → P s →
      P (actions.foldl cartReducer s) := by
  intro actions
  induction actions with
  | nil => intro s _ hs; exact hs
  | cons a rest ih =>
    intro s hok hs
    exact ih (cartReducer s a) (fun b hb => hok b (List.mem_cons_of_mem a hb))
      (step s a (hok a (List.mem_cons_self a rest)) hs)

theorem modifyFirst_map {α β : Type} (p : α → Bool) (f : α → α) (g : α → β)
    (hfg : ∀ x, g (f x) = g x) (l : List α) :
    (modifyFirst p f l).map g = l.map g := by
  induction l with
  | nil => rfl
  | cons x xs ih =>
    unfold modifyFirst
    split
    · simp [hfg]
    · simp [ih]

theorem modifyFirst_append_last {α : Type} (p : α → Bool) (f : α → α) (l : List α) (y : α)
    (hl : ∀ x ∈ l, p x = false) (hy : p y = true) :
    modifyFirst p f (l ++ [y]) = l ++ [f y] := by
  induction l with
  | nil => simp [modifyFirst, hy]
  | cons a as ih =>
    have ha : p a = false := hl a (List.mem_cons_self a as)
    have has : ∀ x ∈ as, p x = false := fun x hx => hl x (List.mem_cons_of_mem a hx)
    simp [modifyFirst, ha, ih has]

theorem modifyFirst_of_none {α : Type} (p : α → Bool) (f : α → α) (l : List α)
    (hl : ∀ x ∈ l, p x = false) : modifyFirst p f l = l := by
  induction l with
  | nil => rfl
  | cons a as ih =>
    have ha : p a = false := hl a (List.mem_cons_self a as)
    have has : ∀ x ∈ as, p x = false := fun x hx => hl x (List.mem_cons_of_mem a hx)
    simp [modifyFirst, ha, ih has]

theorem uniqueIds_addToCart (s : CartState) (p : Product) (h : UniqueIds s) :
    UniqueIds (addToCart s p) := by
  unfold UniqueIds at *
  simp only [addToCart]
  split
  · rw [modifyFirst_map]
    · exact h
    · intro x; rfl
  · rename_i hnone
    rw [List.find?_eq_none] at hnone
    rw [List.map_append, List.nodup_append]
    refine ⟨h, by simp, ?_⟩
    intro a ha hb
    simp only [List.map_cons, List.map_nil, List.mem_singleton] at hb
    obtain ⟨x, hx, hxa⟩ := List.mem_map.mp ha
    apply hnone x hx
    simp [hxa, hb]

theorem uniqueIds_step (s : CartState) (a : CartAction) (h : UniqueIds s) :
    UniqueIds (cartReducer s a) := by
  cases a with
  | setLoading b => exact h
  | setError e => exact h
  | addToCart p => exact uniqueIds_addToCart s p h
  | removeFromCart id =>
    simp only [cartReducer, removeFromCart]
    split
    · exact List.Nodup.sublist
        (List.Sublist.map _ (List.filter_sublist s.items)) h
    · exact h
  | updateQuantity id q =>
    simp only [cartReducer, updateQuantity]
    split
    · unfold UniqueIds
      rw [modifyFirst_map]
      · exact h
      · intro x; rfl
    · exact h
  | clearCart => simp [cartReducer, clearCart, UniqueIds]

theorem find?_none_of_absent (items : List CartItem) (id : Nat)
    (h : ∀ item ∈ items, item.id ≠ id) :
    items.find? (fun item => item.id == id) = none := by
  rw [List.find?_eq_none]
  intro x hx
  simpa using h x hx

theorem addToCart_items_absent (s : CartState) (p : Product)
    (h : ∀ item ∈ s.items, item.id ≠ p.id) :
    (addToCart s p).items = s.items ++ [newLine p] := by
  simp only [addToCart, find?_none_of_absent s.items p.id h, newLine]

theorem addToCart_items_last (s : CartState) (p : Product) (l : List CartItem) (y : CartItem)
    (hs : s.items = l ++ [y]) (hl : ∀ item ∈ l, item.id ≠ p.id) (hy : y.id = p.id) :
    (addToCart s p).items =
      l ++ [{ y with quantity := y.quantity + 1,
                     totalPrice := toFixed2 (toFixed2 (parseFloat p.price)
                       * ((y.quantity + 1 : Int) : ℚ)) }] := by
  have hl' : ∀ x ∈ l, (fun item : CartItem => item.id == p.id) x = false := by
    intro x hx; simpa using hl x hx
  have hy' : (fun item : CartItem => item.id == p.id) y = true := by simp [hy]
  simp only [addToCart]
  split
  · rw [hs, modifyFirst_append_last _ _ l y hl' hy']
  · rename_i hnone
    rw [List.find?_eq_none] at hnone
    have := hnone y (by rw [hs]; simp)
    simp [hy] at this

theorem toFixed2_pen : toFixed2 (9999 / 1000) = 10 := by
  unfold toFixed2; norm_num [Rat.floor]

theorem toFixed2_of_cents (x : ℚ) (k : Int) (h : x = (k : ℚ) / 100) : toFixed2 x = x := by
  rw [h]; exact toFixed2_cents k

theorem toFixed2_twenty : toFixed2 20 = 20 := toFixed2_of_cents 20 2000 (by norm_num)

theorem penTwice_items :
    (runCart [.addToCart pen, .addToCart pen]).items =
      [{ id := 1, title := "Pen", price := 10, thumbnail := "pen.png", quantity := 2,
         totalPrice := 20, stock := 9 }] := by
  simp [runCart, cartReducer, addToCart, initialState, pen, modifyFirst, parseFloat,
    toFixed2_pen]
  norm_num [toFixed2_twenty]

theorem find?_modifyFirst {α : Type} (p : α → Bool) (f : α → α) (l : List α) (y : α)
    (hfind : l.find? p = some y) (hp : p (f y) = true) :
    (modifyFirst p f l).find? p = some (f y) := by
  induction l with
  | nil => simp at hfind
  | cons a as ih =>
    unfold modifyFirst
    by_cases ha : p a = true
    · simp only [List.find?_cons, ha] at hfind
      simp only [Option.some.injEq] at hfind
      subst hfind
      simp [ha, hp]
    · simp only [Bool.not_eq_true] at ha
      simp only [List.find?_cons, ha] at hfind
      simp [ha, ih hfind]

theorem repeat_add_items (s : CartState) (p : Product)
    (h : ∀ item ∈ s.items, item.id ≠ p.id) (k : Nat) :
    ((List.replicate (k + 1) (CartAction.addToCart p)).foldl cartReducer s).items =
      s.items ++
        [{ id := p.id, title := p.title, price := toFixed2 (parseFloat p.price),
           thumbnail := p.thumbnail, quantity := ((k + 1 : Nat) : Int),
           totalPrice := toFixed2 (parseFloat p.price) * ((k + 1 : Nat) : ℚ),
           stock := p.stock }] := by
  induction k with
  | zero =>
    simp only [List.replicate, List.foldl, cartReducer]
    rw [addToCart_items_absent s p h]
    simp [newLine]
  | succ k ih =>
    rw [List.replicate_succ', List.foldl_append]
    simp only [List.foldl_cons, List.foldl_nil, cartReducer]
    rw [addToCart_items_last _ p s.items _ ih h rfl]
    have hq : (((k + 1 : Nat) : Int) + 1 : Int) = ((k + 1 + 1 : Nat) : Int) := by push_cast; ring
    simp only [hq]
    rw [toFixed2_mul_int]
    congr 3

theorem mugTwice_items :
    (runCart [.addToCart mugFromList, .addToCart mugFromDetail]).items =
      [{ id := 1, title := "Mug", price := 1, thumbnail := "mug.png", quantity := 2,
         totalPrice := 1998 / 100, stock := 5 }] := by
  have h1 : toFixed2 1 = 1 := toFixed2_of_cents 1 100 (by norm_num)
  have h2 : toFixed2 (999 / 100) = 999 / 100 := toFixed2_of_cents _ 999 (by norm_num)
  simp [runCart, cartReducer, addToCart, initialState, mugFromList, mugFromDetail, modifyFirst,
    parseFloat, h1, h2]
  norm_num
  exact toFixed2_of_cents _ 1998 (by norm_num)

theorem toFixed2_nearest (x : ℚ) (k : Int) (hx : 0 ≤ x)
    (hlo : (k : ℚ) - 1 / 2 ≤ x * 100) (hhi : x * 100 < (k : ℚ) + 1 / 2) :
    toFixed2 x = (k : ℚ) / 100 := by
  have hfl : Rat.floor (x * 100 + 1 / 2) = k := by
    show ⌊x * 100 + 1 / 2⌋ = k
    rw [Int.floor_eq_iff]
    constructor <;> linarith
  unfold toFixed2
  rw [if_neg (not_lt.mpr hx), hfl]

theorem lampTwice_items :
    (runCart [.addToCart lastLamp, .addToCart lastLamp]).items =
      [{ id := 2, title := "Lamp", price := 25, thumbnail := "lamp.png", quantity := 2,
         totalPrice := 50, stock := 1 }] := by
  have h1 : toFixed2 25 = 25 := toFixed2_of_cents _ 2500 (by norm_num)
  simp [runCart, cartReducer, addToCart, initialState, lastLamp, modifyFirst, parseFloat, h1]
  norm_num
  exact toFixed2_of_cents _ 5000 (by norm_num)

theorem roundHalfEven_near (q : ℚ) (m : Int) (h1 : (m : ℚ) - 1 / 2 < q)
    (h2 : q < (m : ℚ) + 1 / 2) : roundHalfEven q = m := by
  unfold roundHalfEven
  by_cases hq : (m : ℚ) ≤ q
  · have hf : Rat.floor q = m := by
      show ⌊q⌋ = m
      rw [Int.floor_eq_iff]
      constructor <;> linarith
    simp only [hf]
    rw [if_pos (by linarith)]
  · have hf : Rat.floor q = m - 1 := by
      show ⌊q⌋ = m - 1
      rw [Int.floor_eq_iff]
      push_cast
      constructor <;> linarith
    simp only [hf]
    push_cast
    rw [if_neg (by linarith), if_pos (by linarith)]
    ring

theorem binaryExponent_eq (x : ℚ) (hx : 0 < x) (e : Int) (he : -1022 ≤ e)
    (hlo : (2 : ℚ) ^ e ≤ x) (hhi : x < (2 : ℚ) ^ (e + 1)) : binaryExponent x = e := by
  unfold binaryExponent
  rw [abs_of_pos hx]
  have h1 : e ≤ Int.log 2 x :=
    (Int.zpow_le_iff_le_log (by norm_num) hx).mp (by exact_mod_cast hlo)
  have h2 : Int.log 2 x < e + 1 :=
    (Int.lt_zpow_iff_log_lt (by norm_num) hx).mp (by exact_mod_cast hhi)
  omega

theorem toDouble_eq (x : ℚ) (hx : 0 < x) (e m : Int) (he : -1022 ≤ e)
    (hlo : (2 : ℚ) ^ e ≤ x) (hhi : x < (2 : ℚ) ^ (e + 1))
    (h1 : (m : ℚ) - 1 / 2 < x / (2 : ℚ) ^ (e - 52))
    (h2 : x / (2 : ℚ) ^ (e - 52) < (m : ℚ) + 1 / 2) :
    toDouble x = (m : ℚ) * (2 : ℚ) ^ (e - 52) := by
  unfold toDouble
  rw [if_neg (ne_of_gt hx), if_neg (not_lt.mpr (le_of_lt hx))]
  simp only [binaryExponent_eq x hx e he hlo hhi, abs_of_pos hx]
  rw [roundHalfEven_near _ m h1 h2]
  ring

theorem toDouble_zero : toDouble 0 = 0 := by
  simp [toDouble]

theorem toDouble_chair_native : toDouble (120) = 120 := by
  rw [toDouble_eq (120) (by norm_num) (6) 8444249301319680 (by norm_num) (by norm_num)
    (by norm_num) (by norm_num) (by norm_num)]
  norm_num

theorem toDouble_chair_tenth : toDouble (120 / 10) = 12 := by
  rw [toDouble_eq (120 / 10) (by norm_num) (3) 6755399441055744 (by norm_num) (by norm_num)
    (by norm_num) (by norm_num) (by norm_num)]
  norm_num

theorem toFixed2_chair_tenth : toFixed2 (12) = 12 := by
  rw [toFixed2_nearest (12) 1200 (by norm_num) (by norm_num) (by norm_num)]
  norm_num

theorem toDouble_chair_price : toDouble (12) = 12 := by
  rw [toDouble_eq (12) (by norm_num) (3) 6755399441055744 (by norm_num) (by norm_num)
    (by norm_num) (by norm_num) (by norm_num)]
  norm_num

theorem normalizedPrice_chair : normalizedPrice (120) = 12 := by
  unfold normalizedPrice
  rw [toDouble_chair_native, toDouble_chair_tenth, toFixed2_chair_tenth, toDouble_chair_price]

theorem toDouble_cup_native : toDouble (50) = 50 := by
  rw [toDouble_eq (50) (by norm_num) (5) 7036874417766400 (by norm_num) (by norm_num)
    (by norm_num) (by norm_num) (by norm_num)]
  norm_num

theorem toDouble_cup_tenth : toDouble (50 / 10) = 5 := by
  rw [toDouble_eq (50 / 10) (by norm_num) (2) 5629499534213120 (by norm_num) (by norm_num)
    (by norm_num) (by norm_num) (by norm_num)]
  norm_num

theorem toFixed2_cup_tenth : toFixed2 (5) = 5 := by
  rw [toFixed2_nearest (5) 500 (by norm_num) (by norm_num) (by norm_num)]
  norm_num

theorem toDouble_cup_price : toDouble (5) = 5 := by
  rw [toDouble_eq (5) (by norm_num) (2) 5629499534213120 (by norm_num) (by norm_num)
    (by norm_num) (by norm_num) (by norm_num)]
  norm_num

theorem normalizedPrice_cup : normalizedPrice (50) = 5 := by
  unfold normalizedPrice
  rw [toDouble_cup_native, toDouble_cup_tenth, toFixed2_cup_tenth, toDouble_cup_price]

theorem toDouble_desk_native : toDouble (300) = 300 := by
  rw [toDouble_eq (300) (by norm_num) (8) 5277655813324800 (by norm_num) (by norm_num)
    (by norm_num) (by norm_num) (by norm_num)]
  norm_num

theorem toDouble_desk_tenth : toDouble (300 / 10) = 30 := by
  rw [toDouble_eq (300 / 10) (by norm_num) (4) 8444249301319680 (by norm_num) (by norm_num)
    (by norm_num) (by norm_num) (by norm_num)]
  norm_num

theorem toFixed2_desk_tenth : toFixed2 (30) = 30 := by
  rw [toFixed2_nearest (30) 3000 (by norm_num) (by norm_num) (by norm_num)]
  norm_num

theorem toDouble_desk_price : toDouble (30) = 30 := by
  rw [toDouble_eq (30) (by norm_num) (4) 8444249301319680 (by norm_num) (by norm_num)
    (by norm_num) (by norm_num) (by norm_num)]
  norm_num

theorem normalizedPrice_desk : normalizedPrice (300) = 30 := by
  unfold normalizedPrice
  rw [toDouble_desk_native, toDouble_desk_tenth, toFixed2_desk_tenth, toDouble_desk_price]

theorem toDouble_mug_native : toDouble (999 / 100) = 5623870034678907 / 562949953421312 := by
  rw [toDouble_eq (999 / 100) (by norm_num) (3) 5623870034678907 (by norm_num) (by norm_num)
    (by norm_num) (by norm_num) (by norm_num)]
  norm_num

theorem toDouble_mug_tenth : toDouble (5623870034678907 / 562949953421312 / 10) =
    8998192055486251 / 9007199254740992 := by
  rw [toDouble_eq (5623870034678907 / 562949953421312 / 10) (by norm_num)
    (-1) 8998192055486251 (by norm_num) (by norm_num)
    (by norm_num) (by norm_num) (by norm_num)]
  norm_num

theorem toFixed2_mug_tenth : toFixed2 (8998192055486251 / 9007199254740992) = 1 := by
  rw [toFixed2_nearest (8998192055486251 / 9007199254740992) 100
    (by norm_num) (by norm_num) (by norm_num)]
  norm_num

theorem toDouble_mug_price : toDouble (1) = 1 := by
  rw [toDouble_eq (1) (by norm_num) (0) 4503599627370496 (by norm_num) (by norm_num)
    (by norm_num) (by norm_num) (by norm_num)]
  norm_num

theorem normalizedPrice_mug : normalizedPrice (999 / 100) = 1 := by
  unfold normalizedPrice
  rw [toDouble_mug_native, toDouble_mug_tenth, toFixed2_mug_tenth, toDouble_mug_price]

theorem toDouble_vase_native : toDouble (107 / 4) = 107 / 4 := by
  rw [toDouble_eq (107 / 4) (by norm_num) (4) 7529455627010048 (by norm_num) (by norm_num)
    (by norm_num) (by norm_num) (by norm_num)]
  norm_num

theorem toDouble_vase_tenth : toDouble (107 / 4 / 10) = 3011782250804019 / 1125899906842624 := by
  rw [toDouble_eq (107 / 4 / 10) (by norm_num) (1) 6023564501608038 (by norm_num) (by norm_num)
    (by norm_num) (by norm_num) (by norm_num)]
  norm_num

theorem toFixed2_vase_tenth : toFixed2 (3011782250804019 / 1125899906842624) = 267 / 100 := by
  rw [toFixed2_nearest (3011782250804019 / 1125899906842624) 267
    (by norm_num) (by norm_num) (by norm_num)]
  norm_num

theorem toDouble_vase_price : toDouble (267 / 100) = 1503076375634903 / 562949953421312 := by
  rw [toDouble_eq (267 / 100) (by norm_num) (1) 6012305502539612 (by norm_num) (by norm_num)
    (by norm_num) (by norm_num) (by norm_num)]
  norm_num

theorem normalizedPrice_vase : normalizedPrice (107 / 4) = 1503076375634903 / 562949953421312 := by
  unfold normalizedPrice
  rw [toDouble_vase_native, toDouble_vase_tenth, toFixed2_vase_tenth, toDouble_vase_price]

theorem toDouble_twenty : toDouble (20) = 20 := by
  rw [toDouble_eq (20) (by norm_num) (4) 5629499534213120 (by norm_num) (by norm_num)
    (by norm_num) (by norm_num) (by norm_num)]
  norm_num

theorem toDouble_twoHundred : toDouble (200) = 200 := by
  rw [toDouble_eq (200) (by norm_num) (7) 7036874417766400 (by norm_num) (by norm_num)
    (by norm_num) (by norm_num) (by norm_num)]
  norm_num

theorem toDouble_twoCents : toDouble (2 / 100) = 5764607523034235 / 288230376151711744 := by
  rw [toDouble_eq (2 / 100) (by norm_num) (-6) 5764607523034235 (by norm_num) (by norm_num)
    (by norm_num) (by norm_num) (by norm_num)]
  norm_num

theorem normalizeProducts_price (records : List Product) :
    (normalizeProducts records).map (fun product => product.price) =
      records.map (fun record => normalizedPrice record.price) := by
  simp [normalizeProducts, Function.comp_def]

/-! ## The claims -/

/-- C1: after any sequence of cart actions dispatched from the initial state, the
stored `totalQuantity` is the sum of the items' quantities and the stored
`totalAmount` is the sum of the items' line totals. -/
theorem C1_totals_are_sums (actions : List CartAction) :
    (runCart actions).totalQuantity
        = ((runCart actions).items.map (fun item => item.quantity)).sum ∧
    (runCart actions).totalAmount
        = ((runCart actions).items.map (fun item => item.totalPrice)).sum := by
  have h : TotalsInSync (runCart actions) :=
    foldl_invariant TotalsInSync (fun _ => True) (fun s a _ hs => totalsInSync_step s a hs)
      actions initialState (fun _ _ => trivial) totalsInSync_initial
  rw [← sumQuantity_eq_sum, ← sumTotalPrice_eq_sum]
  exact h

/-- C2: code defect.  The same product added once from the list page (price "1.00")
and once from the detail page (price 9.99) leaves a line whose stored unit price
is 1 and whose quantity is 2, but whose line total is 19.98, not price × quantity. -/
theorem C2_line_total_drifts :
    ∃ item ∈ (runCart [.addToCart mugFromList, .addToCart mugFromDetail]).items,
      item.price = 1 ∧ item.quantity = 2 ∧ item.totalPrice = 1998 / 100 ∧
      item.totalPrice ≠ item.price * (item.quantity : ℚ) := by
  rw [mugTwice_items]
  refine ⟨_, List.mem_singleton.mpr rfl, rfl, rfl, rfl, ?_⟩
  norm_num

/-- C3: code defect.  The detail-page payload asking for 3 units of a product that
is not in the cart produces a line with quantity 1, and `totalQuantity` 1. -/
theorem C3_requested_quantity_ignored :
    mugTimesThree.quantity = some 3 ∧
    (addToCart initialState mugTimesThree).items.map (fun item => (item.id, item.quantity))
      = [(1, 1)] ∧
    (addToCart initialState mugTimesThree).totalQuantity = 1 := by
  simp [addToCart, initialState, mugTimesThree, sumQuantity]

/-- C4: adding a product whose id no line item carries appends one line at the end
and leaves the existing lines as they were; the new line copies id, title,
thumbnail and stock, has the two-decimal price, quantity 1 and line total equal to
that price. -/
theorem C4_add_absent_appends (s : CartState) (p : Product)
    (h : ∀ item ∈ s.items, item.id ≠ p.id) :
    (addToCart s p).items =
      s.items ++
        [{ id := p.id, title := p.title, price := toFixed2 (parseFloat p.price),
           thumbnail := p.thumbnail, quantity := 1,
           totalPrice := toFixed2 (parseFloat p.price), stock := p.stock }] :=
  addToCart_items_absent s p h

/-- C4 witness: the mug added to the cart that holds only the lamp. -/
theorem C4_add_absent_appends_witness :
    (∀ item ∈ lampCart.items, item.id ≠ mugFromDetail.id) ∧
    (addToCart lampCart mugFromDetail).items =
      lampCart.items ++
        [{ id := mugFromDetail.id, title := mugFromDetail.title,
           price := toFixed2 (parseFloat mugFromDetail.price),
           thumbnail := mugFromDetail.thumbnail, quantity := 1,
           totalPrice := toFixed2 (parseFloat mugFromDetail.price),
           stock := mugFromDetail.stock }] :=
  ⟨by decide, C4_add_absent_appends lampCart mugFromDetail (by decide)⟩

/-- C5: `n ≥ 1` consecutive `addToCart(p)` on a cart without a line for `p.id`
leave the earlier lines untouched followed by one line for `p.id` with quantity `n`
and line total unit price × `n`, the unit price being `p.price` fixed to two
decimals; that line is the only one carrying `p.id`. -/
theorem C5_repeated_add (s : CartState) (p : Product) (n : Nat) (hn : 1 ≤ n)
    (h : ∀ item ∈ s.items, item.id ≠ p.id) :
    ((List.replicate n (CartAction.addToCart p)).foldl cartReducer s).items =
      s.items ++
        [{ id := p.id, title := p.title, price := toFixed2 (parseFloat p.price),
           thumbnail := p.thumbnail, quantity := (n : Int),
           totalPrice := toFixed2 (parseFloat p.price) * (n : ℚ), stock := p.stock }] ∧
    ((List.replicate n (CartAction.addToCart p)).foldl cartReducer s).items.filter
        (fun item => item.id == p.id) =
        [{ id := p.id, title := p.title, price := toFixed2 (parseFloat p.price),
           thumbnail := p.thumbnail, quantity := (n : Int),
           totalPrice := toFixed2 (parseFloat p.price) * (n : ℚ), stock := p.stock }] := by
  obtain ⟨k, rfl⟩ : ∃ k, n = k + 1 := ⟨n - 1, by omega⟩
  have hitems := repeat_add_items s p h k
  refine ⟨hitems, ?_⟩
  rw [hitems, List.filter_append]
  have hnone : s.items.filter (fun item => item.id == p.id) = [] := by
    rw [List.filter_eq_nil_iff]
    intro x hx
    simpa using h x hx
  simp [hnone]

/-- C5 witness: the mug added three times to the cart that holds only the lamp. -/
theorem C5_repeated_add_witness :
    (1 ≤ 3 ∧ ∀ item ∈ lampCart.items, item.id ≠ mugFromDetail.id) ∧
    ((List.replicate 3 (CartAction.addToCart mugFromDetail)).foldl cartReducer lampCart).items =
      lampCart.items ++
        [{ id := mugFromDetail.id, title := mugFromDetail.title,
           price := toFixed2 (parseFloat mugFromDetail.price),
           thumbnail := mugFromDetail.thumbnail, quantity := ((3 : Nat) : Int),
           totalPrice := toFixed2 (parseFloat mugFromDetail.price) * ((3 : Nat) : ℚ),
           stock := mugFromDetail.stock }] :=
  ⟨⟨by decide, by decide⟩,
    (C5_repeated_add lampCart mugFromDetail 3 (by decide) (by decide)).1⟩

/-- C6 (as stated, refuted): on a cart whose lamp line has stock 1, `updateQuantity`
with quantity 0 (below 1) and with quantity 7 (above stock) both change the items
and the stored total quantity. -/
theorem C6_out_of_range_update_changes_state :
    lampCart.items.find? (fun item => item.id == 2) = some lampLine ∧
    ((0 : Int) < 1 ∧ (7 : Int) > lampLine.stock) ∧
    (updateQuantity lampCart 2 0).items ≠ lampCart.items ∧
    (updateQuantity lampCart 2 0).totalQuantity ≠ lampCart.totalQuantity ∧
    (updateQuantity lampCart 2 7).items ≠ lampCart.items ∧
    (updateQuantity lampCart 2 7).totalQuantity ≠ lampCart.totalQuantity := by
  refine ⟨by decide, by decide, ?_, ?_, ?_, ?_⟩ <;>
    simp [updateQuantity, lampCart, lampLine, modifyFirst, sumQuantity]

/-- C6 (amended): for an item found under its id and a quantity `q` below 1 or above
the item's stock, the reducer `updateQuantity` performs no range check: the item
then holds quantity `q` and line total price × `q`.  The request is a no-op when
it is made through `CartItem.handleQuantityChange`, which dispatches nothing. -/
theorem C6_range_check_is_in_the_handler (s : CartState) (item : CartItem) (q : Int)
    (hfind : s.items.find? (fun i => i.id == item.id) = some item)
    (hq : q < 1 ∨ q > item.stock) :
    (updateQuantity s item.id q).items.find? (fun i => i.id == item.id) =
      some { item with quantity := q, totalPrice := item.price * (q : ℚ) } ∧
    handleQuantityChange item q s = s := by
  constructor
  · simp only [updateQuantity, hfind]
    exact find?_modifyFirst _ _ s.items item hfind (by simp)
  · unfold handleQuantityChange
    rw [if_neg]
    omega

/-- C6 witness: quantity 0 requested for the lamp line of the lamp cart. -/
theorem C6_range_check_is_in_the_handler_witness :
    (lampCart.items.find? (fun i => i.id == lampLine.id) = some lampLine ∧
      ((0 : Int) < 1 ∨ (0 : Int) > lampLine.stock)) ∧
    (updateQuantity lampCart lampLine.id 0).items.find? (fun i => i.id == lampLine.id) =
      some { lampLine with quantity := 0, totalPrice := lampLine.price * ((0 : Int) : ℚ) } ∧
    handleQuantityChange lampLine 0 lampCart = lampCart :=
  ⟨⟨by decide, by decide⟩,
    C6_range_check_is_in_the_handler lampCart lampLine 0 (by decide) (by decide)⟩

/-- C7: code defect.  A product with stock 1, added twice from the empty cart
through the add button of the list page, leaves a line with quantity 2 and stock
1: the quantity is above the stock ceiling. -/
theorem C7_repeat_add_exceeds_stock :
    1 ≤ lastLamp.stock ∧
    ProductItem.handleAddToCart lastLamp (ProductItem.handleAddToCart lastLamp initialState) =
      runCart [.addToCart lastLamp, .addToCart lastLamp] ∧
    (runCart [.addToCart lastLamp, .addToCart lastLamp]).items.map
        (fun item => (item.id, item.quantity, item.stock)) = [(2, 2, 1)] ∧
    ∃ item ∈ (runCart [.addToCart lastLamp, .addToCart lastLamp]).items,
      ¬ item.quantity ≤ item.stock := by
  rw [lampTwice_items]
  exact ⟨by decide, rfl, rfl, _, List.mem_singleton.mpr rfl, by decide⟩

/-- C8: after any sequence of cart actions dispatched from the initial state, no
two line items share an id. -/
theorem C8_ids_unique (actions : List CartAction) :
    ((runCart actions).items.map (fun item => item.id)).Nodup :=
  foldl_invariant UniqueIds (fun _ => True) (fun s a _ hs => uniqueIds_step s a hs)
    actions initialState (fun _ _ => trivial) (by simp [UniqueIds, initialState])

/-- C9 (as stated, refuted): the two adds of the product priced "9.999" do not
leave a line with unit price 9.99 and line total 19.98. -/
theorem C9_price_is_not_truncated :
    (runCart [.addToCart pen, .addToCart pen]).items.map
        (fun item => (item.id, item.quantity, item.price, item.totalPrice))
      ≠ [(1, 2, 999 / 100, 1998 / 100)] := by
  rw [penTwice_items]
  norm_num

/-- C9 (amended): starting from the empty cart, two adds of the product with id 1
and price "9.999" leave exactly one line item, with quantity 2, unit price 10
(`toFixed(2)` rounds to the nearest cent) and line total 20. -/
theorem C9_price_rounds_to_nearest_cent :
    (runCart [.addToCart pen, .addToCart pen]).items.map
        (fun item => (item.id, item.quantity, item.price, item.totalPrice))
      = [(1, 2, 10, 20)] := by
  rw [penTwice_items]
  rfl

/-- C10: code defect.  The gateway record priced 9.99 enters the state with price
1.00 on the list path but with price 9.99, not divided by 10, as the
`currentProduct` stored on the fetch-by-id path. -/
theorem C10_detail_price_not_normalized :
    (normalizeProducts [mugRecord]).map (fun product => product.price) = [1] ∧
    ((fetchProductByIdFulfilled productsInitialState (fetchProductById mugRecord)).currentProduct).map
        (fun product => product.price) = some (999 / 100) ∧
    (999 / 100 : ℚ) ≠ toFixed2 (mugRecord.price / 10) := by
  have h : toFixed2 (999 / 100 / 10) = 1 := by
    have := toFixed2_nearest (999 / 100 / 10) 100 (by norm_num) (by norm_num) (by norm_num)
    simpa using this
  refine ⟨?_, ?_, ?_⟩
  · rw [normalizeProducts_price]; simp [mugRecord, normalizedPrice_mug]
  · simp [fetchProductByIdFulfilled, fetchProductById, mugRecord]
  · simp only [mugRecord, h]; norm_num

/-! ## Supporting lemmas for the catalog query engine -/

theorem toFixed2_int (k : Int) : toFixed2 (k : ℚ) = (k : ℚ) := by
  have h := toFixed2_cents (k * 100)
  have e : (((k * 100 : Int) : ℚ)) / 100 = (k : ℚ) := by push_cast; ring
  rwa [e] at h

theorem normalizeProducts_threeRecords :
    normalizeProducts threeRecords =
      [{ id := 1, title := "Chair", category := "furniture", price := 12, rating := 4, stock := 3,
         thumbnail := "chair.png", quantity := none },
       { id := 2, title := "Cup", category := "kitchen", price := 5, rating := 5, stock := 8,
         thumbnail := "cup.png", quantity := none },
       { id := 3, title := "Desk", category := "furniture", price := 30, rating := 3, stock := 2,
         thumbnail := "desk.png", quantity := none }] := by
  simp [normalizeProducts, threeRecords, normalizedPrice_chair, normalizedPrice_cup,
    normalizedPrice_desk]

theorem jsSort_perm {α : Type} (compareFn : α → α → ℚ) (l : List α) :
    (jsSort compareFn l).Perm l :=
  List.perm_insertionSort _ l

theorem jsSort_pairwise {α : Type} (compareFn : α → α → ℚ) (R : α → α → Prop)
    (h : ∀ a b, compareFn a b ≤ 0 ↔ R a b) (htotal : ∀ a b, R a b ∨ R b a)
    (htrans : ∀ a b c, R a b → R b c → R a c) (l : List α) :
    (jsSort compareFn l).Pairwise R := by
  haveI : IsTotal α (fun a b => compareFn a b ≤ 0) :=
    ⟨fun a b => by rw [h a b, h b a]; exact htotal a b⟩
  haveI : IsTrans α (fun a b => compareFn a b ≤ 0) :=
    ⟨fun a b c hab hbc => by rw [h] at *; exact htrans a b c hab hbc⟩
  have hs : List.Sorted (fun a b => compareFn a b ≤ 0) (jsSort compareFn l) :=
    List.sorted_insertionSort _ l
  exact List.Pairwise.imp (fun {a b} hab => (h a b).mp hab) hs

theorem applySort_perm (filters : Filters) (l : List Product) :
    (applySort filters l).Perm l := by
  unfold applySort
  split
  · split
    · exact jsSort_perm _ l
    · exact List.Perm.refl l
  · exact List.Perm.refl l

theorem applySort_key (c : Option String) (r : Option (ℚ × ℚ)) (k : String)
    (hk : k ≠ "" ∧ k ≠ "relevance") (l : List Product) :
    applySort { category := c, priceRange := r, sortBy := some k } l
      = jsSort (compareProducts k) l := by
  simp only [applySort]
  rw [if_pos hk]

theorem jsSlice_sublist {α : Type} (l : List α) (start stop : Int) :
    (jsSlice l start stop).Sublist l :=
  List.Sublist.trans (List.take_sublist _ _) (List.drop_sublist _ _)

theorem jsSlice_window {α : Type} (l : List α) (a n : Nat) :
    jsSlice l (a : Int) ((a : Int) + (n : Int)) = (l.drop a).take n := by
  unfold jsSlice
  have h1 : ¬ ((a : Int) < 0) := by omega
  have h2 : ¬ ((a : Int) + (n : Int) < 0) := by omega
  simp only [h1, h2, if_false]
  by_cases h : a ≤ l.length
  · have hk : (min (a : Int) (l.length : Int)).toNat = a := by omega
    have hf : (min ((a : Int) + (n : Int)) (l.length : Int) - min (a : Int) (l.length : Int)).toNat
        = min n (l.length - a) := by omega
    rw [hk, hf]
    have hlen : (l.drop a).length = l.length - a := List.length_drop a l
    rw [← hlen, List.take_eq_take]
    omega
  · have hk : (min (a : Int) (l.length : Int)).toNat = l.length := by omega
    rw [hk, List.drop_eq_nil_of_le (le_refl _), List.drop_eq_nil_of_le (by omega)]
    simp

theorem filteredProducts_eq_filter {lower : String → String} (records : List Product)
    (category : String) (lo hi : ℚ) (sortBy : Option String) :
    filteredProducts lower
        { category := some category, priceRange := some (lo, hi), sortBy := sortBy } records =
      (normalizeProducts records).filter (fun product =>
        decide ((category = "" ∨ lower product.category = lower category) ∧
          toDouble lo ≤ product.price ∧ product.price ≤ toDouble hi)) := by
  unfold filteredProducts applyPriceRangeFilter applyCategoryFilter
  by_cases hc : category = ""
  · simp [hc]
  · simp only [hc, List.filter_filter, if_true, not_false_eq_true, ne_eq, false_or]
    congr 1
    funext product
    by_cases h1 : lower product.category = lower category <;>
      by_cases h2 : toDouble lo ≤ product.price <;>
      by_cases h3 : product.price ≤ toDouble hi <;>
      simp [h1, h2, h3]

theorem asciiToLowerCase_labels :
    asciiToLowerCase "FURNITURE" = "furniture" ∧ asciiToLowerCase "Kitchen" = "kitchen" ∧
    asciiToLowerCase "furniture" = "furniture" ∧ asciiToLowerCase "kitchen" = "kitchen" ∧
    asciiToLowerCase "Home Decor" = "home decor" ∧
    asciiToLowerCase "home decor" = "home decor" := by
  decide

theorem queryProducts_length {lower : String → String} (filters : Filters)
    (records : List Product) :
    (queryProducts lower filters records).length =
      (filteredProducts lower filters records).length :=
  (applySort_perm filters _).length_eq

theorem queryProducts_eq {lower : String → String} (filters : Filters) (records : List Product) :
    queryProducts lower filters records =
      applySort filters (filteredProducts lower filters records) := rfl

theorem scenario_sorted :
    queryProducts asciiToLowerCase (scenarioFilters "price-low") threeRecords =
      [{ id := 2, title := "Cup", category := "kitchen", price := 5, rating := 5, stock := 8,
         thumbnail := "cup.png", quantity := none },
       { id := 1, title := "Chair", category := "furniture", price := 12, rating := 4,
         stock := 3, thumbnail := "chair.png", quantity := none }] := by
  rw [queryProducts, filteredProducts, normalizeProducts_threeRecords]
  simp [applySort, applyPriceRangeFilter, applyCategoryFilter, List.filter, jsSort,
    compareProducts, scenarioFilters, toDouble_zero, toDouble_twenty]
  norm_num [List.insertionSort, List.orderedInsert]

theorem queryProducts_noFilters_length {lower : String → String} (records : List Product) :
    (queryProducts lower noFilters records).length = records.length := by
  simp [queryProducts, filteredProducts, applySort, applyPriceRangeFilter, applyCategoryFilter,
    noFilters, normalizeProducts]

theorem mathCeilDiv_twenty (n : Nat) :
    mathCeilDiv (n : Int) 20 = (((n + 19) / 20 : Nat) : Int) := by
  unfold mathCeilDiv
  rw [Int.ceil_eq_iff]
  have h1 : n ≤ 20 * ((n + 19) / 20) := by omega
  have h2 : 20 * ((n + 19) / 20) < n + 20 := by omega
  generalize (n + 19) / 20 = q at h1 h2 ⊢
  have h1q : (n : ℚ) ≤ 20 * (q : ℚ) := by exact_mod_cast h1
  have h2q : 20 * (q : ℚ) < (n : ℚ) + 20 := by exact_mod_cast h2
  push_cast
  constructor
  · rw [lt_div_iff₀ (by norm_num)]; linarith
  · rw [div_le_iff₀ (by norm_num)]; linarith

theorem fetchProducts_page {lower : String → String}
    (records : List Product) (page : Int) (hp : 1 ≤ page)
    (search : String) (filters : Filters) :
    fetchProducts lower (fun _ => .ok records)
        { page := page, limit := 20, search := search, filters := filters } =
      .ok { products := ((queryProducts lower filters records).drop (20 * (page.toNat - 1))).take 20,
            total := ((queryProducts lower filters records).length : Int),
            currentPage := page, limit := 20, search := search, appliedFilters := filters } := by
  have hstart : (page - 1) * 20 = ((20 * (page.toNat - 1) : Nat) : Int) := by omega
  simp only [fetchProducts]
  rw [hstart]
  have h20 : (20 : Int) = ((20 : Nat) : Int) := rfl
  rw [h20, jsSlice_window]

theorem trim_eq_empty_iff (s : String) :
    trim s = "" ↔ ∀ c ∈ s.data, isWhiteSpace c = true := by
  unfold trim
  constructor
  · intro h
    have h1 : ((s.data.dropWhile isWhiteSpace).reverse.dropWhile isWhiteSpace).reverse = [] := by
      have := congrArg String.data h
      simpa using this
    rw [List.reverse_eq_nil_iff, List.dropWhile_eq_nil_iff] at h1
    by_contra hne
    have hd : s.data.dropWhile isWhiteSpace ≠ [] := by
      rw [Ne, List.dropWhile_eq_nil_iff]; exact hne
    obtain ⟨x, xs, hx⟩ := List.exists_cons_of_ne_nil hd
    have hhead : isWhiteSpace x = true := h1 x (by rw [hx]; simp)
    have hnot := List.head_dropWhile_not isWhiteSpace s.data hd
    simp only [hx, List.head_cons] at hnot
    rw [hhead] at hnot
    exact absurd hnot (by decide)
  · intro h
    have h1 : s.data.dropWhile isWhiteSpace = [] := List.dropWhile_eq_nil_iff.mpr h
    rw [h1]
    rfl

theorem find?_split (items : List CartItem) (id : Nat) (item : CartItem)
    (h : items.find? (fun i => i.id == id) = some item) :
    item.id = id ∧ ∃ pre post, items = pre ++ item :: post ∧ ∀ x ∈ pre, x.id ≠ id := by
  rw [List.find?_eq_some] at h
  obtain ⟨hid, pre, post, hsplit, hpre⟩ := h
  refine ⟨by simpa using hid, pre, post, hsplit, ?_⟩
  intro x hx
  simpa using hpre x hx

theorem modifyFirst_split {α : Type} (p : α → Bool) (f : α → α) (pre post : List α) (y : α)
    (hpre : ∀ x ∈ pre, p x = false) (hy : p y = true) :
    modifyFirst p f (pre ++ y :: post) = pre ++ f y :: post := by
  induction pre with
  | nil => simp [modifyFirst, hy]
  | cons a as ih =>
    have ha : p a = false := hpre a (List.mem_cons_self a as)
    have has : ∀ x ∈ as, p x = false := fun x hx => hpre x (List.mem_cons_of_mem a hx)
    simp [modifyFirst, ha, ih has]

/-! ## The claims on the catalog query engine -/

/-- C11: with a selected category and a price range `[lo, hi]`, the records kept by
the filtering of `fetchProducts` are exactly the normalized records whose category
equals the selected one after `toLowerCase` on both sides (or any category, when
none is selected) and whose price lies between the two bounds, bounds included;
the reported total is their number.  Prices 12, 5, 30 with range `[0, 20]` keep 12
and 5, total 2; the selection 'FURNITURE' with range `[12, 30]` keeps the chair at
12 and the desk at 30, both labelled 'furniture'; the selection 'Kitchen' keeps the
cup alone; and the record labelled 'Home Decor' with native price 26.75, which
normalizes to "2.67", is kept by the selection 'home decor' with range
`[0.02, 2.67]`. -/
theorem C11_filter_keeps_matching (lower : String → String) (records : List Product)
    (category : String) (lo hi : ℚ) (sortBy : Option String) (page limit : Int)
    (search : String) :
    filteredProducts lower
        { category := some category, priceRange := some (lo, hi), sortBy := sortBy } records =
      (normalizeProducts records).filter (fun product =>
        decide ((category = "" ∨ lower product.category = lower category) ∧
          toDouble lo ≤ product.price ∧ product.price ≤ toDouble hi)) ∧
    (fetchProducts lower (fun _ => .ok records)
        { page := page, limit := limit, search := search,
          filters := { category := some category, priceRange := some (lo, hi),
                       sortBy := sortBy } }).map (fun payload => payload.total) =
      .ok (((normalizeProducts records).filter (fun product =>
        decide ((category = "" ∨ lower product.category = lower category) ∧
          toDouble lo ≤ product.price ∧ product.price ≤ toDouble hi))).length : Int) ∧
    (fetchProducts lower (fun _ => .ok threeRecords)
        { filters := scenarioFilters "relevance" }).map
        (fun payload => (payload.products.map (fun product => product.price), payload.total)) =
      .ok ([12, 5], 2) ∧
    (fetchProducts asciiToLowerCase (fun _ => .ok threeRecords)
        { filters := furnitureFilters }).map
        (fun payload => (payload.products.map (fun product => (product.id, product.price)),
          payload.total)) =
      .ok ([(1, 12), (3, 30)], 2) ∧
    (fetchProducts asciiToLowerCase (fun _ => .ok threeRecords)
        { filters := kitchenFilters }).map
        (fun payload => (payload.products.map (fun product => (product.id, product.price)),
          payload.total)) =
      .ok ([(2, 5)], 1) ∧
    (fetchProducts asciiToLowerCase (fun _ => .ok [vaseRecord]) { filters := vaseFilters }).map
        (fun payload => (payload.products.map (fun product => (product.id, product.price)),
          payload.total)) =
      .ok ([(7, toDouble (267 / 100))], 1) := by
  refine ⟨filteredProducts_eq_filter records category lo hi sortBy, ?_, ?_, ?_, ?_, ?_⟩
  · simp only [fetchProducts, Except.map]
    rw [queryProducts_length, filteredProducts_eq_filter]
  · simp only [fetchProducts, Except.map]
    have hq : queryProducts lower (scenarioFilters "relevance") threeRecords =
        [{ id := 1, title := "Chair", category := "furniture", price := 12, rating := 4,
           stock := 3, thumbnail := "chair.png", quantity := none },
         { id := 2, title := "Cup", category := "kitchen", price := 5, rating := 5, stock := 8,
           thumbnail := "cup.png", quantity := none }] := by
      rw [queryProducts, filteredProducts, normalizeProducts_threeRecords]
      simp [applySort, applyPriceRangeFilter, applyCategoryFilter, List.filter, scenarioFilters,
        toDouble_zero, toDouble_twenty]
      norm_num
    rw [hq]
    simp [jsSlice]
  · simp only [fetchProducts, Except.map]
    have hq : queryProducts asciiToLowerCase furnitureFilters threeRecords =
        [{ id := 1, title := "Chair", category := "furniture", price := 12, rating := 4,
           stock := 3, thumbnail := "chair.png", quantity := none },
         { id := 3, title := "Desk", category := "furniture", price := 30, rating := 3,
           stock := 2, thumbnail := "desk.png", quantity := none }] := by
      rw [queryProducts, filteredProducts, normalizeProducts_threeRecords]
      simp [applySort, applyPriceRangeFilter, applyCategoryFilter, List.filter, furnitureFilters,
        toDouble_chair_price, toDouble_desk_price, asciiToLowerCase_labels]
      norm_num
    rw [hq]
    simp [jsSlice]
  · simp only [fetchProducts, Except.map]
    have hq : queryProducts asciiToLowerCase kitchenFilters threeRecords =
        [{ id := 2, title := "Cup", category := "kitchen", price := 5, rating := 5, stock := 8,
           thumbnail := "cup.png", quantity := none }] := by
      rw [queryProducts, filteredProducts, normalizeProducts_threeRecords]
      simp [applySort, applyPriceRangeFilter, applyCategoryFilter, List.filter, kitchenFilters,
        toDouble_zero, toDouble_twoHundred, asciiToLowerCase_labels]
      norm_num
    rw [hq]
    simp [jsSlice]
  · simp only [fetchProducts, Except.map]
    have hq : queryProducts asciiToLowerCase vaseFilters [vaseRecord] =
        [{ id := 7, title := "Vase", category := "Home Decor", price := toDouble (267 / 100),
           rating := 4, stock := 6, thumbnail := "vase.png", quantity := none }] := by
      rw [queryProducts, filteredProducts]
      simp [normalizeProducts, vaseRecord, applySort, applyPriceRangeFilter,
        applyCategoryFilter, List.filter, vaseFilters, normalizedPrice_vase,
        toDouble_vase_price, asciiToLowerCase_labels]
      rw [toDouble_twoCents]
      norm_num
    rw [hq]
    simp [jsSlice]

/-- C12: the sequence `fetchProducts` paginates is a permutation of the filtered
records; with `'relevance'` it is the filtered records in gateway order, with
`'price-low'` prices never decrease, with `'price-high'` prices never increase,
with `'rating'` ratings never increase, with `'newest'` ids never increase; every
slice taken from it as a page is ordered the same way. -/
theorem C12_sort_orders_by_key (lower : String → String)
    (records : List Product) (category : Option String)
    (priceRange : Option (ℚ × ℚ)) (sortBy : String) (start stop : Int) :
    (queryProducts lower { category := category, priceRange := priceRange, sortBy := some sortBy }
        records).Perm
      (filteredProducts lower { category := category, priceRange := priceRange, sortBy := some sortBy }
        records) ∧
    (sortBy = "relevance" →
      queryProducts lower { category := category, priceRange := priceRange, sortBy := some sortBy }
          records =
        filteredProducts lower { category := category, priceRange := priceRange, sortBy := some sortBy }
          records) ∧
    (sortBy = "price-low" →
      (queryProducts lower { category := category, priceRange := priceRange, sortBy := some sortBy }
          records).Pairwise (fun a b => a.price ≤ b.price) ∧
      (jsSlice (queryProducts lower { category := category, priceRange := priceRange,
                                      sortBy := some sortBy } records) start stop).Pairwise
        (fun a b => a.price ≤ b.price)) ∧
    (sortBy = "price-high" →
      (queryProducts lower { category := category, priceRange := priceRange, sortBy := some sortBy }
          records).Pairwise (fun a b => b.price ≤ a.price) ∧
      (jsSlice (queryProducts lower { category := category, priceRange := priceRange,
                                      sortBy := some sortBy } records) start stop).Pairwise
        (fun a b => b.price ≤ a.price)) ∧
    (sortBy = "rating" →
      (queryProducts lower { category := category, priceRange := priceRange, sortBy := some sortBy }
          records).Pairwise (fun a b => b.rating ≤ a.rating) ∧
      (jsSlice (queryProducts lower { category := category, priceRange := priceRange,
                                      sortBy := some sortBy } records) start stop).Pairwise
        (fun a b => b.rating ≤ a.rating)) ∧
    (sortBy = "newest" →
      (queryProducts lower { category := category, priceRange := priceRange, sortBy := some sortBy }
          records).Pairwise (fun a b => b.id ≤ a.id) ∧
      (jsSlice (queryProducts lower { category := category, priceRange := priceRange,
                                      sortBy := some sortBy } records) start stop).Pairwise
        (fun a b => b.id ≤ a.id)) := by
  refine ⟨applySort_perm _ _, ?_, ?_, ?_, ?_, ?_⟩
  · intro h
    subst h
    simp [queryProducts_eq, applySort]
  · intro h
    subst h
    have hs := jsSort_pairwise (compareProducts "price-low")
      (fun a b : Product => a.price ≤ b.price)
      (fun a b => by simp [compareProducts]) (fun a b => le_total _ _)
      (fun a b c hab hbc => le_trans hab hbc)
      (filteredProducts lower { category := category, priceRange := priceRange,
                                sortBy := some "price-low" } records)
    rw [queryProducts_eq, applySort_key _ _ _ (by decide)]
    exact ⟨hs, List.Pairwise.sublist (jsSlice_sublist _ _ _) hs⟩
  · intro h
    subst h
    have hs := jsSort_pairwise (compareProducts "price-high")
      (fun a b : Product => b.price ≤ a.price)
      (fun a b => by simp [compareProducts]) (fun a b => le_total _ _)
      (fun a b c hab hbc => le_trans hbc hab)
      (filteredProducts lower { category := category, priceRange := priceRange,
                                sortBy := some "price-high" } records)
    rw [queryProducts_eq, applySort_key _ _ _ (by decide)]
    exact ⟨hs, List.Pairwise.sublist (jsSlice_sublist _ _ _) hs⟩
  · intro h
    subst h
    have hs := jsSort_pairwise (compareProducts "rating")
      (fun a b : Product => b.rating ≤ a.rating)
      (fun a b => by simp [compareProducts]) (fun a b => le_total _ _)
      (fun a b c hab hbc => le_trans hbc hab)
      (filteredProducts lower { category := category, priceRange := priceRange,
                                sortBy := some "rating" } records)
    rw [queryProducts_eq, applySort_key _ _ _ (by decide)]
    exact ⟨hs, List.Pairwise.sublist (jsSlice_sublist _ _ _) hs⟩
  · intro h
    subst h
    have hs := jsSort_pairwise (compareProducts "newest")
      (fun a b : Product => b.id ≤ a.id)
      (fun a b => by simp [compareProducts]) (fun a b => le_total _ _)
      (fun a b c hab hbc => le_trans hbc hab)
      (filteredProducts lower { category := category, priceRange := priceRange,
                                sortBy := some "newest" } records)
    rw [queryProducts_eq, applySort_key _ _ _ (by decide)]
    exact ⟨hs, List.Pairwise.sublist (jsSlice_sublist _ _ _) hs⟩

/-- C12 witness: the three scenario records, range `[0, 20]`, sorted `'price-low'`:
the sequence is the cup (5) then the chair (12), and its prices never decrease. -/
theorem C12_sort_orders_by_key_witness :
    ("price-low" = "price-low") ∧
    queryProducts asciiToLowerCase (scenarioFilters "price-low") threeRecords =
      [{ id := 2, title := "Cup", category := "kitchen", price := 5, rating := 5, stock := 8,
         thumbnail := "cup.png", quantity := none },
       { id := 1, title := "Chair", category := "furniture", price := 12, rating := 4,
         stock := 3, thumbnail := "chair.png", quantity := none }] ∧
    (queryProducts asciiToLowerCase (scenarioFilters "price-low") threeRecords).Pairwise
      (fun a b => a.price ≤ b.price) :=
  ⟨rfl, scenario_sorted,
    ((C12_sort_orders_by_key asciiToLowerCase threeRecords (some "") (some (0, 20)) "price-low" 0 20).2.2.1
      rfl).1⟩

/-- C13: for page `p ≥ 1` and page size 20, `fetchProducts` returns as total the
length of the filtered-and-sorted sequence `L` and as products the slice of `L` at
indices `[(p-1)·20, p·20)`, whose length is `min 20 (|L| - (p-1)·20)` (the
subtraction stopping at 0), and the fulfilled reducer stores `totalProducts = |L|`
and `totalPages = ceil(|L| / 20)`. -/
theorem C13_page_window (lower : String → String)
    (records : List Product) (page : Int) (hp : 1 ≤ page)
    (search : String) (filters : Filters) (state : ProductsState) :
    fetchProducts lower (fun _ => .ok records)
        { page := page, limit := 20, search := search, filters := filters } =
      .ok { products := ((queryProducts lower filters records).drop (20 * (page.toNat - 1))).take 20,
            total := ((queryProducts lower filters records).length : Int),
            currentPage := page, limit := 20, search := search, appliedFilters := filters } ∧
    (((queryProducts lower filters records).drop (20 * (page.toNat - 1))).take 20).length =
      min 20 ((queryProducts lower filters records).length - 20 * (page.toNat - 1)) ∧
    (fetchProductsFulfilled state
        { products := ((queryProducts lower filters records).drop (20 * (page.toNat - 1))).take 20,
          total := ((queryProducts lower filters records).length : Int),
          currentPage := page, limit := 20, search := search,
          appliedFilters := filters }).totalProducts =
      ((queryProducts lower filters records).length : Int) ∧
    (fetchProductsFulfilled state
        { products := ((queryProducts lower filters records).drop (20 * (page.toNat - 1))).take 20,
          total := ((queryProducts lower filters records).length : Int),
          currentPage := page, limit := 20, search := search,
          appliedFilters := filters }).totalPages =
      Int.ceil ((((queryProducts lower filters records).length : Int) : ℚ) / ((20 : Int) : ℚ)) := by
  refine ⟨fetchProducts_page records page hp search filters, ?_, rfl, rfl⟩
  rw [List.length_take, List.length_drop]

/-- C13 witness: 45 records give 20 items on page 1 and 5 items on page 3, with
`totalPages` 3; no records give an empty page and `totalPages` 0. -/
theorem C13_page_window_witness :
    (1 ≤ (3 : Int)) ∧
    (fetchProducts asciiToLowerCase (fun _ => .ok fortyFiveRecords)
        { page := 1, limit := 20, search := "", filters := noFilters }).map
        (fun payload => (payload.products.length, payload.total)) = .ok (20, 45) ∧
    (fetchProducts asciiToLowerCase (fun _ => .ok fortyFiveRecords)
        { page := 3, limit := 20, search := "", filters := noFilters }).map
        (fun payload => (payload.products.length, payload.total)) = .ok (5, 45) ∧
    (fetchProducts asciiToLowerCase (fun _ => .ok [])
        { page := 1, limit := 20, search := "", filters := noFilters }).map
        (fun payload => (payload.products.length, payload.total)) = .ok (0, 0) ∧
    (fetchProducts asciiToLowerCase (fun _ => .ok fortyFiveRecords)
        { page := 3, limit := 20, search := "", filters := noFilters }).map
        (fun payload => (fetchProductsFulfilled productsInitialState payload).totalPages) =
      .ok 3 ∧
    (fetchProducts asciiToLowerCase (fun _ => .ok [])
        { page := 1, limit := 20, search := "", filters := noFilters }).map
        (fun payload => (fetchProductsFulfilled productsInitialState payload).totalPages) =
      .ok 0 := by
  have h45 : (queryProducts asciiToLowerCase noFilters fortyFiveRecords).length = 45 := by
    rw [queryProducts_noFilters_length]; simp [fortyFiveRecords]
  have h0 : (queryProducts asciiToLowerCase noFilters []).length = 0 := by
    rw [queryProducts_noFilters_length]; rfl
  have c1 := C13_page_window asciiToLowerCase fortyFiveRecords 1 (by decide) "" noFilters
    productsInitialState
  have c3 := C13_page_window asciiToLowerCase fortyFiveRecords 3 (by decide) "" noFilters
    productsInitialState
  have c0 := C13_page_window asciiToLowerCase [] 1 (by decide) "" noFilters productsInitialState
  refine ⟨by decide, ?_, ?_, ?_, ?_, ?_⟩
  · rw [c1.1]; simp only [Except.map]; rw [c1.2.1, h45]; rfl
  · rw [c3.1]; simp only [Except.map]; rw [c3.2.1, h45]; rfl
  · rw [c0.1]; simp only [Except.map]; rw [c0.2.1, h0]; rfl
  · rw [c3.1]; simp only [Except.map]; rw [c3.2.2.2, h45]
    exact congrArg Except.ok (mathCeilDiv_twenty 45)
  · rw [c0.1]; simp only [Except.map]; rw [c0.2.2.2, h0]
    exact congrArg Except.ok (mathCeilDiv_twenty 0)

/-- C14: each of `setSearchTerm`, `setSelectedCategory`, `setSortBy` and
`setPriceRange` stores its payload in its own field and sets `currentPage` to 1,
whatever the page was. -/
theorem C14_setters_reset_page (state : ProductsState) (term category sortBy : String)
    (range : ℚ × ℚ) :
    ((setSearchTerm state term).searchTerm = term ∧
      (setSearchTerm state term).currentPage = 1) ∧
    ((setSelectedCategory state category).selectedCategory = category ∧
      (setSelectedCategory state category).currentPage = 1) ∧
    ((setSortBy state sortBy).sortBy = sortBy ∧ (setSortBy state sortBy).currentPage = 1) ∧
    ((setPriceRange state range).priceRange = range ∧
      (setPriceRange state range).currentPage = 1) :=
  ⟨⟨rfl, rfl⟩, ⟨rfl, rfl⟩, ⟨rfl, rfl⟩, ⟨rfl, rfl⟩⟩

/-- C15: code defect.  From every query state `clearFilters` resets the search term,
the category, the sort key and the page to their initial values, but stores the
price range `[0, 2000]`, which is not the initial `[0, 200]`. -/
theorem C15_clearFilters_range_is_2000 (state : ProductsState) :
    (clearFilters state).searchTerm = productsInitialState.searchTerm ∧
    (clearFilters state).selectedCategory = productsInitialState.selectedCategory ∧
    (clearFilters state).sortBy = productsInitialState.sortBy ∧
    (clearFilters state).currentPage = 1 ∧
    (clearFilters state).priceRange = (0, 2000) ∧
    productsInitialState.priceRange = (0, 200) ∧
    (clearFilters state).priceRange ≠ productsInitialState.priceRange := by
  refine ⟨rfl, rfl, rfl, rfl, rfl, rfl, ?_⟩
  simp [clearFilters, productsInitialState]

/-- C16: code defect.  The single action `clearFilters`, dispatched from the initial
state, leaves the stored price range at `[0, 2000]`, whose upper bound is above
200. -/
theorem C16_range_leaves_bounds :
    (runQuery [.clearFilters]).priceRange = (0, 2000) ∧
    ¬ (runQuery [.clearFilters]).priceRange.2 ≤ 200 := by
  have h : (runQuery [.clearFilters]).priceRange = (0, 2000) := rfl
  refine ⟨h, ?_⟩
  rw [h]
  norm_num

/-- C17: `changePage(n)` sets `currentPage` to `n`, and nothing else, when
`1 ≤ n ≤ totalPages`; otherwise it leaves the whole state as it is.  The reducer
`setCurrentPage` itself stores any payload. -/
theorem C17_changePage_guards (state : ProductsState) (n : Int) :
    (1 ≤ n ∧ n ≤ state.totalPages → changePage state n = { state with currentPage := n }) ∧
    (¬ (1 ≤ n ∧ n ≤ state.totalPages) → changePage state n = state) ∧
    setCurrentPage state n = { state with currentPage := n } := by
  refine ⟨?_, ?_, rfl⟩
  · intro h
    unfold changePage
    rw [if_pos (by omega)]
    rfl
  · intro h
    unfold changePage
    rw [if_neg (by omega)]

/-- C17 witness: with `totalPages` 3 a request for page 4 changes nothing and a
request for page 2 is stored. -/
theorem C17_changePage_guards_witness :
    (¬ (1 ≤ (4 : Int) ∧ (4 : Int) ≤ threePageState.totalPages) ∧
      changePage threePageState 4 = threePageState) ∧
    ((1 ≤ (2 : Int) ∧ (2 : Int) ≤ threePageState.totalPages) ∧
      changePage threePageState 2 = { threePageState with currentPage := 2 }) :=
  ⟨⟨by decide, (C17_changePage_guards threePageState 4).2.1 (by decide)⟩,
   ⟨by decide, (C17_changePage_guards threePageState 2).1 (by decide)⟩⟩

/-- C18 (as stated, refuted): a state on page 2 that receives the fulfilled result
of an earlier query for page 1 of another search has its products, total, page
count and current page overwritten by it. -/
theorem C18_stale_result_overwrites :
    (stalePayload.currentPage ≠ pageTwoState.currentPage ∧
      stalePayload.search ≠ pageTwoState.searchTerm) ∧
    (fetchProductsFulfilled pageTwoState stalePayload).products ≠ pageTwoState.products ∧
    (fetchProductsFulfilled pageTwoState stalePayload).totalProducts
      ≠ pageTwoState.totalProducts ∧
    (fetchProductsFulfilled pageTwoState stalePayload).totalPages ≠ pageTwoState.totalPages ∧
    (fetchProductsFulfilled pageTwoState stalePayload).currentPage
      ≠ pageTwoState.currentPage := by
  have hpages : (fetchProductsFulfilled pageTwoState stalePayload).totalPages = 0 :=
    mathCeilDiv_twenty 0
  refine ⟨⟨by decide, by decide⟩, ?_, ?_, ?_, ?_⟩
  · simp [fetchProductsFulfilled, pageTwoState, stalePayload]
  · simp [fetchProductsFulfilled, pageTwoState, stalePayload]
  · rw [hpages]; simp [pageTwoState]
  · simp [fetchProductsFulfilled, pageTwoState, stalePayload]

/-- C18 (amended): the fulfilled reducer applies every result, superseded or not:
products, total and current page are taken from the payload, the page count is
`ceil(total / limit)` of the payload, and the filter fields of the state are left
as they are. -/
theorem C18_fulfilled_applies_any_result (state : ProductsState) (payload : FetchPayload) :
    (fetchProductsFulfilled state payload).products = payload.products ∧
    (fetchProductsFulfilled state payload).totalProducts = payload.total ∧
    (fetchProductsFulfilled state payload).currentPage = payload.currentPage ∧
    (fetchProductsFulfilled state payload).totalPages
      = mathCeilDiv payload.total payload.limit ∧
    (fetchProductsFulfilled state payload).searchTerm = state.searchTerm ∧
    (fetchProductsFulfilled state payload).selectedCategory = state.selectedCategory ∧
    (fetchProductsFulfilled state payload).sortBy = state.sortBy ∧
    (fetchProductsFulfilled state payload).priceRange = state.priceRange :=
  ⟨rfl, rfl, rfl, rfl, rfl, rfl, rfl, rfl⟩

/-- C19 (as stated, refuted): the search term made of one space has length 1, yet
`fetchProducts` requests the bulk listing for it, not the search endpoint. -/
theorem C19_blank_term_lists :
    " ".length = 1 ∧ requestUrl " " = .listing 100 ∧ requestUrl " " ≠ .search " " := by
  decide

/-- C19 (amended): `fetchProducts` requests the text-search endpoint with the term as
given exactly when the term holds a character that is not white space
(`search.trim()` is non-empty), and otherwise the bulk listing with limit 100. -/
theorem C19_search_when_not_blank (search : String) :
    ((∃ c ∈ search.data, isWhiteSpace c = false) → requestUrl search = .search search) ∧
    ((∀ c ∈ search.data, isWhiteSpace c = true) → requestUrl search = .listing 100) := by
  constructor
  · rintro ⟨c, hc, hw⟩
    unfold requestUrl
    rw [if_pos]
    intro hempty
    have := (trim_eq_empty_iff search).mp hempty c hc
    rw [hw] at this
    exact absurd this (by decide)
  · intro h
    unfold requestUrl
    rw [if_neg]
    exact not_not.mpr ((trim_eq_empty_iff search).mpr h)

/-- C19 witness: the term "mug" goes to the search endpoint, the term of one space
to the bulk listing. -/
theorem C19_search_when_not_blank_witness :
    ((∃ c ∈ "mug".data, isWhiteSpace c = false) ∧ requestUrl "mug" = .search "mug") ∧
    ((∀ c ∈ " ".data, isWhiteSpace c = true) ∧ requestUrl " " = .listing 100) :=
  ⟨⟨by decide, (C19_search_when_not_blank "mug").1 (by decide)⟩,
   ⟨by decide, (C19_search_when_not_blank " ").2 (by decide)⟩⟩

/-- C20: when the item found under the id is `item` and `1 ≤ q ≤ item.stock`,
`updateQuantity` replaces it, in place, by the item with quantity `q` and line
total price × `q` (price, stock and the other fields kept), leaves every other item
where it was, and stores the totals recomputed over the new items; when no item
carries the id, items and totals are left as they were. -/
theorem C20_update_in_range (state : CartState) (id : Nat) (q : Int) :
    (∀ item : CartItem, state.items.find? (fun i => i.id == id) = some item →
      1 ≤ q ∧ q ≤ item.stock →
      ∃ pre post, state.items = pre ++ item :: post ∧ (∀ x ∈ pre, x.id ≠ id) ∧
        (updateQuantity state id q).items =
          pre ++ { item with quantity := q, totalPrice := item.price * (q : ℚ) } :: post ∧
        (updateQuantity state id q).totalQuantity =
          ((updateQuantity state id q).items.map (fun i => i.quantity)).sum ∧
        (updateQuantity state id q).totalAmount =
          ((updateQuantity state id q).items.map (fun i => i.totalPrice)).sum) ∧
    ((∀ x ∈ state.items, x.id ≠ id) →
      (updateQuantity state id q).items = state.items ∧
      (updateQuantity state id q).totalQuantity = state.totalQuantity ∧
      (updateQuantity state id q).totalAmount = state.totalAmount) := by
  constructor
  · intro item hfind _
    obtain ⟨hid, pre, post, hsplit, hpre⟩ := find?_split state.items id item hfind
    refine ⟨pre, post, hsplit, hpre, ?_, ?_, ?_⟩
    · simp only [updateQuantity, hfind]
      rw [hsplit]
      exact modifyFirst_split _ _ pre post item (fun x hx => by simpa using hpre x hx)
        (by simp [hid])
    · simp only [updateQuantity, hfind]
      exact sumQuantity_eq_sum _
    · simp only [updateQuantity, hfind]
      exact sumTotalPrice_eq_sum _
  · intro h
    simp [updateQuantity, find?_none_of_absent state.items id h]

/-- C20 witness: the lamp line of the lamp cart (stock 1) updated to quantity 1, and
an update for id 9, which the lamp cart does not hold. -/
theorem C20_update_in_range_witness :
    (lampCart.items.find? (fun i => i.id == 2) = some lampLine ∧
      (1 ≤ (1 : Int) ∧ (1 : Int) ≤ lampLine.stock) ∧
      ∃ pre post, lampCart.items = pre ++ lampLine :: post ∧ (∀ x ∈ pre, x.id ≠ 2) ∧
        (updateQuantity lampCart 2 1).items =
          pre ++ { lampLine with quantity := 1, totalPrice := lampLine.price * ((1 : Int) : ℚ) }
            :: post ∧
        (updateQuantity lampCart 2 1).totalQuantity =
          ((updateQuantity lampCart 2 1).items.map (fun i => i.quantity)).sum ∧
        (updateQuantity lampCart 2 1).totalAmount =
          ((updateQuantity lampCart 2 1).items.map (fun i => i.totalPrice)).sum) ∧
    ((∀ x ∈ lampCart.items, x.id ≠ 9) ∧ (updateQuantity lampCart 9 1).items = lampCart.items) :=
  ⟨⟨by decide, by decide,
     (C20_update_in_range lampCart 2 1).1 lampLine (by decide) (by decide)⟩,
   ⟨by decide, ((C20_update_in_range lampCart 9 1).2 (by decide)).1⟩⟩

/-! ## Supporting lemmas for the remaining claims -/

theorem filter_absent (items : List CartItem) (id : Nat) (h : ∀ x ∈ items, x.id ≠ id) :
    items.filter (fun item => item.id != id) = items := by
  rw [List.filter_eq_self]
  intro x hx
  simpa using h x hx

theorem lampOnce_items : (runCart [.addToCart lastLamp]).items = [lampLine] := by
  have h1 : toFixed2 25 = 25 := toFixed2_of_cents _ 2500 (by norm_num)
  simp [runCart, cartReducer, addToCart, initialState, lastLamp, lampLine, parseFloat, h1]

theorem returnedPage_eq {lower : String → String}
    (records : List Product) (filters : Filters) (search : String)
    (page : Int) (hp : 1 ≤ page) :
    returnedPage lower records filters search page =
      ((queryProducts lower filters records).drop (20 * (page.toNat - 1))).take 20 := by
  unfold returnedPage
  rw [fetchProducts_page records page hp search filters]

theorem flatMap_windows {α : Type} (l : List α) (n t : Nat) :
    (List.range t).flatMap (fun i => (l.drop (n * i)).take n) = l.take (n * t) := by
  induction t with
  | zero => simp
  | succ t ih =>
    rw [List.range_succ, List.flatMap_append, ih, Nat.mul_succ, List.take_add]
    simp

theorem pages_concat {lower : String → String}
    (records : List Product) (filters : Filters) (search : String) (t : Nat)
    (ht : (queryProducts lower filters records).length ≤ 20 * t) :
    (List.range t).flatMap (fun i => returnedPage lower records filters search ((i : Int) + 1)) =
      queryProducts lower filters records := by
  have hfun : (fun i : Nat => returnedPage lower records filters search ((i : Int) + 1)) =
      (fun i : Nat => ((queryProducts lower filters records).drop (20 * i)).take 20) := by
    funext i
    rw [returnedPage_eq _ _ _ _ (by omega)]
    have : ((i : Int) + 1).toNat - 1 = i := by omega
    rw [this]
  rw [hfun, flatMap_windows, List.take_of_length_le ht]

theorem mem_modifyFirst_match {α : Type} (p : α → Bool) (f : α → α) (l : List α) (x : α)
    (hx : x ∈ modifyFirst p f l) : x ∈ l ∨ ∃ y ∈ l, p y = true ∧ x = f y := by
  induction l with
  | nil => simp [modifyFirst] at hx
  | cons a as ih =>
    unfold modifyFirst at hx
    split at hx
    · rename_i hpa
      rcases List.mem_cons.mp hx with h | h
      · exact Or.inr ⟨a, List.mem_cons_self a as, hpa, h⟩
      · exact Or.inl (List.mem_cons_of_mem a h)
    · rcases List.mem_cons.mp hx with h | h
      · exact Or.inl (h ▸ List.mem_cons_self a as)
      · rcases ih h with h1 | ⟨y, hy, hpy, hxy⟩
        · exact Or.inl (List.mem_cons_of_mem a h1)
        · exact Or.inr ⟨y, List.mem_cons_of_mem a hy, hpy, hxy⟩

theorem uniqueIds_runCart (actions : List CartAction) : UniqueIds (runCart actions) :=
  foldl_invariant UniqueIds (fun _ => True) (fun s a _ hs => uniqueIds_step s a hs)
    actions initialState (fun _ _ => trivial) (by simp [UniqueIds, initialState])

theorem fortyFive_pages {lower : String → String} :
    mathCeilDiv ((queryProducts lower noFilters fortyFiveRecords).length : Int) 20 = 3 := by
  have h45 : (queryProducts lower noFilters fortyFiveRecords).length = 45 := by
    rw [queryProducts_noFilters_length]; simp [fortyFiveRecords]
  rw [h45]
  exact mathCeilDiv_twenty 45

theorem pageLoop_interior (totalPages : Int) (n : Nat) :
    ∀ i : Int, 2 ≤ i → i + (n : Int) ≤ totalPages →
      pageLoop totalPages i n = (intsFrom i n).map PageEntry.page := by
  induction n with
  | zero => intro i _ _; rfl
  | succ n ih =>
    intro i h2 hT
    have hcond : i ≠ 1 ∧ i ≠ totalPages := by constructor <;> omega
    simp only [pageLoop, intsFrom, if_pos hcond, List.map_cons, List.singleton_append]
    rw [ih (i + 1) (by omega) (by push_cast at hT ⊢; omega)]

theorem mem_intsFrom (n : Nat) : ∀ (i p : Int), p ∈ intsFrom i n ↔ i ≤ p ∧ p < i + (n : Int) := by
  induction n with
  | zero => intro i p; simp [intsFrom]
  | succ n ih =>
    intro i p
    simp only [intsFrom, List.mem_cons, ih]
    push_cast
    omega

theorem intsFrom_increasing (n : Nat) : ∀ i : Int, (intsFrom i n).Pairwise (· < ·) := by
  induction n with
  | zero => intro i; simp [intsFrom]
  | succ n ih =>
    intro i
    simp only [intsFrom, List.pairwise_cons]
    refine ⟨?_, ih (i + 1)⟩
    intro p hp
    rw [mem_intsFrom] at hp
    omega

theorem numericEntries_append (xs ys : List PageEntry) :
    numericEntries (xs ++ ys) = numericEntries xs ++ numericEntries ys := by
  induction xs with
  | nil => rfl
  | cons x xs ih =>
    cases x with
    | page n => simp [numericEntries, ih]
    | dots => simp [numericEntries, ih]

theorem numericEntries_pages (l : List Int) : numericEntries (l.map PageEntry.page) = l := by
  induction l with
  | nil => rfl
  | cons a l ih => simp [numericEntries, ih]

theorem withGaps_run (totalPages : Int) (n : Nat) :
    ∀ i : Int, withGaps (intsFrom i (n + 1) ++ [totalPages]) =
      (intsFrom i (n + 1)).map PageEntry.page ++
        ((if totalPages - (i + (n : Int)) > 1 then [PageEntry.dots] else []) ++
          [PageEntry.page totalPages]) := by
  induction n with
  | zero =>
    intro i
    simp [intsFrom, withGaps]
  | succ n ih =>
    intro i
    have hstep : intsFrom i (n + 1 + 1) ++ [totalPages] =
        i :: (i + 1) :: (intsFrom (i + 1 + 1) n ++ [totalPages]) := by
      simp [intsFrom]
    have hrec : (i + 1) :: (intsFrom (i + 1 + 1) n ++ [totalPages]) =
        intsFrom (i + 1) (n + 1) ++ [totalPages] := by
      simp [intsFrom]
    rw [hstep, withGaps, hrec, ih (i + 1)]
    have hno : ¬ (i + 1 - i > 1) := by omega
    have hidx : i + 1 + (n : Int) = i + ((n + 1 : Nat) : Int) := by push_cast; ring
    simp only [hno, if_false, List.nil_append, hidx]
    simp [intsFrom]

theorem getPageNumbers_shape (c T : Int) (hT : 2 ≤ T) (hc1 : 1 ≤ c) (hc2 : c ≤ T) :
    ∃ (lo : Int) (n : Nat), lo = max 2 (c - 2) ∧ lo + (n : Int) - 1 = min (T - 1) (c + 2) ∧
      2 ≤ lo ∧ lo + (n : Int) ≤ T ∧ (n = 0 → T = 2) ∧
      getPageNumbers c T =
        PageEntry.page 1 :: ((if lo > 2 then [PageEntry.dots] else []) ++
          ((intsFrom lo n).map PageEntry.page ++
            ((if lo + (n : Int) - 1 < T - 1 then [PageEntry.dots] else []) ++
              [PageEntry.page T]))) := by
  refine ⟨max 2 (c - 2), (min (T - 1) (c + 2) - max 2 (c - 2) + 1).toNat, rfl, ?_, ?_, ?_, ?_, ?_⟩
  · omega
  · omega
  · omega
  · intro h; omega
  · have hn : max 2 (c - 2) + ((min (T - 1) (c + 2) - max 2 (c - 2) + 1).toNat : Int) - 1 =
        min (T - 1) (c + 2) := by omega
    have hT1 : T > 1 := by omega
    unfold getPageNumbers
    simp only [hT1, if_true, hn]
    rw [pageLoop_interior T _ _ (by omega) (by omega)]
    simp

theorem numericEntries_shape (lo T : Int) (n : Nat) (d1 d2 : Prop) [Decidable d1] [Decidable d2] :
    numericEntries (PageEntry.page 1 :: ((if d1 then [PageEntry.dots] else []) ++
      ((intsFrom lo n).map PageEntry.page ++
        ((if d2 then [PageEntry.dots] else []) ++ [PageEntry.page T])))) =
      1 :: (intsFrom lo n ++ [T]) := by
  by_cases h1 : d1 <;> by_cases h2 : d2 <;>
    simp [h1, h2, numericEntries, numericEntries_append, numericEntries_pages]

theorem withGaps_shape (lo T : Int) (n : Nat) (h2 : 2 ≤ lo) (hn0 : n = 0 → T = 2 ∧ lo = 2) :
    withGaps (1 :: (intsFrom lo n ++ [T])) =
      PageEntry.page 1 :: ((if lo > 2 then [PageEntry.dots] else []) ++
        ((intsFrom lo n).map PageEntry.page ++
          ((if lo + (n : Int) - 1 < T - 1 then [PageEntry.dots] else []) ++
            [PageEntry.page T]))) := by
  cases n with
  | zero =>
    obtain ⟨hT, hlo⟩ := hn0 rfl
    subst hT hlo
    simp [intsFrom, withGaps]
  | succ m =>
    have hcons : (1 : Int) :: (intsFrom lo (m + 1) ++ [T]) =
        1 :: lo :: (intsFrom (lo + 1) m ++ [T]) := by simp [intsFrom]
    have hback : lo :: (intsFrom (lo + 1) m ++ [T]) = intsFrom lo (m + 1) ++ [T] := by
      simp [intsFrom]
    rw [hcons, withGaps, hback, withGaps_run]
    have e1 : (lo - 1 > 1) ↔ (lo > 2) := by omega
    have e2 : (T - (lo + (m : Int)) > 1) ↔ (lo + ((m + 1 : Nat) : Int) - 1 < T - 1) := by
      push_cast; omega
    simp only [e1, e2]

theorem getLast?_shape {α : Type} (a t : α) (xs ys zs : List α) :
    (a :: (xs ++ (ys ++ (zs ++ [t])))).getLast? = some t := by
  have h : a :: (xs ++ (ys ++ (zs ++ [t]))) = (a :: (xs ++ (ys ++ zs))) ++ [t] := by simp
  rw [h, List.getLast?_concat]

theorem usdFormat_nineteen_fifty : usdFormat (.finite (39 / 2)) = "$19.50" := by
  have hfl : Rat.floor (|(39 / 2 : ℚ)| * 100 + 1 / 2) = 1950 := by
    show ⌊|(39 / 2 : ℚ)| * 100 + 1 / 2⌋ = 1950
    rw [Int.floor_eq_iff]
    norm_num [abs_of_nonneg]
  have hneg : ¬ ((39 / 2 : ℚ) < 0) := by norm_num
  simp only [usdFormat, hfl, hneg, if_false]
  decide

theorem digitChar_isDigit (k : Nat) (h : k < 10) : (Nat.digitChar k).isDigit = true := by
  interval_cases k <;> decide

theorem natDigits_isDigit (fuel : Nat) : ∀ n, ∀ c ∈ natDigits fuel n, c.isDigit = true := by
  induction fuel with
  | zero => intro n c hc; simp [natDigits] at hc
  | succ fuel ih =>
    intro n c hc
    unfold natDigits at hc
    split at hc
    · rename_i hlt
      rw [List.mem_singleton] at hc
      rw [hc]; exact digitChar_isDigit n hlt
    · rcases List.mem_append.mp hc with h | h
      · exact ih _ c h
      · rw [List.mem_singleton] at h
        rw [h]; exact digitChar_isDigit _ (Nat.mod_lt _ (by decide))

theorem mem_groupReversed (l : List Char) : ∀ c ∈ groupReversed l, c ∈ l ∨ c = ',' := by
  induction l using groupReversed.induct with
  | case1 a b c d rest ih =>
    intro x hx
    rw [groupReversed] at hx
    simp only [List.mem_cons] at hx ⊢
    rcases hx with h | h | h | h | h
    · exact Or.inl (Or.inl h)
    · exact Or.inl (Or.inr (Or.inl h))
    · exact Or.inl (Or.inr (Or.inr (Or.inl h)))
    · exact Or.inr h
    · rcases ih x h with h1 | h1
      · simp only [List.mem_cons] at h1
        exact Or.inl (Or.inr (Or.inr (Or.inr h1)))
      · exact Or.inr h1
  | case2 l hl =>
    intro x hx
    rw [groupReversed] at hx
    · exact Or.inl hx
    · exact hl

theorem usdFormat_two_fraction_digits (x : ℚ) :
    ∃ (pre : List Char) (d1 d2 : Char),
      (usdFormat (.finite x)).data = pre ++ ['.', d1, d2] ∧
      d1.isDigit = true ∧ d2.isDigit = true ∧ '.' ∉ pre := by
  refine ⟨(if x < 0 then ['-'] else []) ++ ['$'] ++
      (groupReversed (natDigits ((Rat.floor (|x| * 100 + 1 / 2)).toNat / 100 + 1)
        ((Rat.floor (|x| * 100 + 1 / 2)).toNat / 100)).reverse).reverse,
    Nat.digitChar ((Rat.floor (|x| * 100 + 1 / 2)).toNat % 100 / 10),
    Nat.digitChar ((Rat.floor (|x| * 100 + 1 / 2)).toNat % 100 % 10), ?_, ?_, ?_, ?_⟩
  · simp [usdFormat]
  · exact digitChar_isDigit _ (by omega)
  · exact digitChar_isDigit _ (by omega)
  · intro hmem
    simp only [List.mem_append, List.mem_reverse, List.mem_singleton] at hmem
    rcases hmem with (h | h) | h
    · split at h
      · rw [List.mem_singleton] at h; exact absurd h (by decide)
      · simp at h
    · exact absurd h (by decide)
    · rcases mem_groupReversed _ _ h with h1 | h1
      · rw [List.mem_reverse] at h1
        have := natDigits_isDigit _ _ _ h1
        exact absurd this (by decide)
      · exact absurd h1 (by decide)

/-! ## The claims on removal, clearing, failures, formatting and pagination -/

/-- C21: `removeFromCart(id)` leaves exactly the items whose id differs from `id`, in
their original order, and does not touch `error`; when an item had the id the
stored totals are the sums over the remaining items, and when none had it the
items and both totals are what they were. -/
theorem C21_remove_deletes_item (state : CartState) (id : Nat) :
    (removeFromCart state id).items = state.items.filter (fun item => item.id != id) ∧
    (removeFromCart state id).error = state.error ∧
    ((∃ x ∈ state.items, x.id = id) →
      (removeFromCart state id).totalQuantity =
        ((removeFromCart state id).items.map (fun i => i.quantity)).sum ∧
      (removeFromCart state id).totalAmount =
        ((removeFromCart state id).items.map (fun i => i.totalPrice)).sum) ∧
    ((∀ x ∈ state.items, x.id ≠ id) →
      (removeFromCart state id).items = state.items ∧
      (removeFromCart state id).totalQuantity = state.totalQuantity ∧
      (removeFromCart state id).totalAmount = state.totalAmount) := by
  refine ⟨?_, ?_, ?_, ?_⟩
  · unfold removeFromCart
    split
    · rfl
    · rename_i hnone
      rw [List.find?_eq_none] at hnone
      exact (filter_absent state.items id (fun x hx => by simpa using hnone x hx)).symm
  · unfold removeFromCart
    split <;> rfl
  · rintro ⟨x, hx, hxid⟩
    unfold removeFromCart
    split
    · exact ⟨sumQuantity_eq_sum _, sumTotalPrice_eq_sum _⟩
    · rename_i hnone
      rw [List.find?_eq_none] at hnone
      exact absurd (by simpa using hxid) (hnone x hx)
  · intro h
    simp [removeFromCart, find?_none_of_absent state.items id h]

/-- C21 witness: removing the lamp (id 2) from the cart of a lamp and a mug leaves the
mug line; removing id 9, which the cart does not hold, changes nothing. -/
theorem C21_remove_deletes_item_witness :
    ((∃ x ∈ twoLineCart.items, x.id = 2) ∧
      (removeFromCart twoLineCart 2).items.map (fun i => i.id) = [1] ∧
      (removeFromCart twoLineCart 2).totalQuantity =
        ((removeFromCart twoLineCart 2).items.map (fun i => i.quantity)).sum) ∧
    ((∀ x ∈ twoLineCart.items, x.id ≠ 9) ∧
      (removeFromCart twoLineCart 9).items = twoLineCart.items) :=
  ⟨⟨by decide, by rw [(C21_remove_deletes_item twoLineCart 2).1]; decide,
     ((C21_remove_deletes_item twoLineCart 2).2.2.1 (by decide)).1⟩,
   ⟨by decide, ((C21_remove_deletes_item twoLineCart 9).2.2.2 (by decide)).1⟩⟩

/-- C22: `clearCart` yields no items and both totals 0, and applying it twice gives
the state that applying it once gives. -/
theorem C22_clear_empties_and_is_idempotent (state : CartState) :
    (clearCart state).items = [] ∧ (clearCart state).totalQuantity = 0 ∧
    (clearCart state).totalAmount = 0 ∧ clearCart (clearCart state) = clearCart state :=
  ⟨rfl, rfl, rfl, rfl⟩

/-- C23 (as stated, refuted): the reducer `addToCart` given a payload whose requested
quantity is 0 still adds a line to the empty cart and raises `totalQuantity` to 1. -/
theorem C23_zero_quantity_still_adds :
    mugTimesZero.quantity = some 0 ∧
    (addToCart initialState mugTimesZero).items ≠ initialState.items ∧
    (addToCart initialState mugTimesZero).totalQuantity ≠ initialState.totalQuantity := by
  simp [addToCart, initialState, mugTimesZero, sumQuantity]

/-- C23 (amended): an add request whose quantity is `q ≤ 0` is a no-op when it is made
through `ProductDetail.handleAddToCart`, which dispatches nothing for it (nor
without a product): the cart state is left as it is. -/
theorem C23_guard_is_in_the_handler (state : CartState) (product : Product) (q : Int)
    (hq : q ≤ 0) :
    ProductDetail.handleAddToCart (some product) q state = state ∧
    ProductDetail.handleAddToCart none q state = state := by
  constructor
  · simp [ProductDetail.handleAddToCart, hq]
  · rfl

/-- C23 witness: the mug requested with quantity 0 on the lamp cart. -/
theorem C23_guard_is_in_the_handler_witness :
    ((0 : Int) ≤ 0) ∧
    ProductDetail.handleAddToCart (some mugFromDetail) 0 lampCart = lampCart ∧
    ProductDetail.handleAddToCart none 0 lampCart = lampCart :=
  ⟨by decide, C23_guard_is_in_the_handler lampCart mugFromDetail 0 (by decide)⟩

/-- C24: when the gateway fails, `fetchProducts` is rejected with the gateway's
message if it has a non-empty one and with 'Failed to fetch products' otherwise,
in either case a non-empty string; the rejected reducer stores that message in
`error`, sets `loading` to false and leaves the products, the counts, the current
page and the filter fields as they were. -/
theorem C24_failure_is_all_or_nothing (lower : String → String)
    (message : Option String) (args : FetchArgs)
    (state : ProductsState) :
    fetchProducts lower (fun _ => .error message) args =
      .error (rejectionMessage message "Failed to fetch products") ∧
    (∀ m, message = some m → m ≠ "" →
      rejectionMessage message "Failed to fetch products" = m) ∧
    (message = none ∨ message = some "" →
      rejectionMessage message "Failed to fetch products" = "Failed to fetch products") ∧
    rejectionMessage message "Failed to fetch products" ≠ "" ∧
    (fetchProductsRejected state
        (some (rejectionMessage message "Failed to fetch products"))).error =
      some (rejectionMessage message "Failed to fetch products") ∧
    (fetchProductsRejected state
        (some (rejectionMessage message "Failed to fetch products"))).loading = false ∧
    fetchProductsRejected state (some (rejectionMessage message "Failed to fetch products")) =
      { state with loading := false,
                   error := some (rejectionMessage message "Failed to fetch products") } := by
  have hne : rejectionMessage message "Failed to fetch products" ≠ "" := by
    unfold rejectionMessage
    split
    · split
      · assumption
      · decide
    · decide
  have hkeep : rejectionMessage (some (rejectionMessage message "Failed to fetch products"))
      "Something went wrong" = rejectionMessage message "Failed to fetch products" := by
    generalize rejectionMessage message "Failed to fetch products" = r at hne ⊢
    simp [rejectionMessage, hne]
  refine ⟨rfl, ?_, ?_, hne, ?_, rfl, ?_⟩
  · intro m hm hmne
    subst hm
    simp [rejectionMessage, hmne]
  · rintro (h | h) <;> subst h <;> simp [rejectionMessage]
  · simp only [fetchProductsRejected, hkeep]
  · simp only [fetchProductsRejected, hkeep]

/-- C24 witness: a failure carrying "Network Error" and a failure carrying no message. -/
theorem C24_failure_is_all_or_nothing_witness :
    ((some "Network Error" = some "Network Error" ∧ "Network Error" ≠ "") ∧
      rejectionMessage (some "Network Error") "Failed to fetch products" = "Network Error") ∧
    (((none : Option String) = none ∨ (none : Option String) = some "") ∧
      rejectionMessage none "Failed to fetch products" = "Failed to fetch products") :=
  ⟨⟨⟨rfl, by decide⟩,
     (C24_failure_is_all_or_nothing asciiToLowerCase (some "Network Error") {} productsInitialState).2.1
       "Network Error" rfl (by decide)⟩,
   ⟨Or.inl rfl,
     (C24_failure_is_all_or_nothing asciiToLowerCase none {} productsInitialState).2.2.1 (Or.inl rfl)⟩⟩

/-- C25 (as stated, refuted): `formatPrice(Infinity)` is "$∞" and
`formatPrice(-Infinity)` is "-$∞", not "$0.00". -/
theorem C25_infinity_is_formatted :
    formatPrice usdFormat (.number .posInfinity) = "$∞" ∧
    formatPrice usdFormat (.number .posInfinity) ≠ "$0.00" ∧
    formatPrice usdFormat (.number .negInfinity) = "-$∞" ∧
    formatPrice usdFormat (.number .negInfinity) ≠ "$0.00" := by
  decide

/-- C25 (amended): `formatPrice` is total; it returns "$0.00" for `null`, `undefined`
and NaN, and hands every other number, the infinities included, to the USD
formatter; a finite amount comes back with exactly two fraction digits, and
`formatPrice(19.5)` is "$19.50". -/
theorem C25_formatPrice_guards_missing_and_nan (format : JsNumber → String) :
    formatPrice format .null = "$0.00" ∧
    formatPrice format .undefined = "$0.00" ∧
    formatPrice format (.number .nan) = "$0.00" ∧
    (∀ x : ℚ, formatPrice format (.number (.finite x)) = format (.finite x)) ∧
    formatPrice format (.number .posInfinity) = format .posInfinity ∧
    formatPrice format (.number .negInfinity) = format .negInfinity ∧
    (∀ x : ℚ, ∃ (pre : List Char) (d1 d2 : Char),
      (formatPrice usdFormat (.number (.finite x))).data = pre ++ ['.', d1, d2] ∧
      d1.isDigit = true ∧ d2.isDigit = true ∧ '.' ∉ pre) ∧
    formatPrice usdFormat (.number (.finite (39 / 2))) = "$19.50" := by
  have hfinite : ∀ (f : JsNumber → String) (x : ℚ),
      formatPrice f (.number (.finite x)) = f (.finite x) := by
    intro f x
    by_cases hx : x = 0 <;> simp [formatPrice, isFalsy, isZero, toNumber, isNaN, hx]
  refine ⟨rfl, rfl, rfl, hfinite format, rfl, rfl, ?_, ?_⟩
  · intro x
    rw [hfinite]
    exact usdFormat_two_fraction_digits x
  · rw [hfinite]
    exact usdFormat_nineteen_fifty

/-- C26: the category load step dispatches `fetchCategories` exactly when the cached
list is empty; with a cached category the state is left as it is, a failed fetch
leaves `categories` as it was, and a successful one stores the fetched list. -/
theorem C26_categories_fetched_once (state : ProductsState)
    (gateway : Except (Option String) (List String)) :
    (dispatchesFetchCategories state = true ↔ state.categories = []) ∧
    (state.categories ≠ [] → fetchCategoriesOnMount state gateway = state) ∧
    (∀ message, (fetchCategoriesOnMount state (.error message)).categories = state.categories) ∧
    (fetchCategoriesRejected state).categories = state.categories ∧
    (state.categories = [] → ∀ labels,
      (fetchCategoriesOnMount state (.ok labels)).categories = labels) := by
  have hguard : dispatchesFetchCategories state = true ↔ state.categories = [] := by
    simp [dispatchesFetchCategories]
  refine ⟨hguard, ?_, ?_, rfl, ?_⟩
  · intro h
    have : dispatchesFetchCategories state = false := by
      rw [Bool.eq_false_iff]; exact fun hc => h (hguard.mp hc)
    simp [fetchCategoriesOnMount, this]
  · intro message
    unfold fetchCategoriesOnMount
    split <;> rfl
  · intro h labels
    simp [fetchCategoriesOnMount, hguard.mpr h, fetchCategories, fetchCategoriesFulfilled]

/-- C26 witness: with two cached labels nothing is dispatched; with the empty cache of
the initial state the fetched labels are stored. -/
theorem C26_categories_fetched_once_witness :
    (cachedState.categories ≠ [] ∧
      fetchCategoriesOnMount cachedState (.ok ["garden"]) = cachedState) ∧
    (productsInitialState.categories = [] ∧
      (fetchCategoriesOnMount productsInitialState (.ok ["garden"])).categories = ["garden"]) :=
  ⟨⟨by decide, (C26_categories_fetched_once cachedState (.ok ["garden"])).2.1 (by decide)⟩,
   ⟨rfl, (C26_categories_fetched_once productsInitialState (.ok ["garden"])).2.2.2.2 rfl
      ["garden"]⟩⟩

/-- C27: with page size 20 and `totalPages = ceil(|L| / 20)` for the
filtered-and-sorted sequence `L`, the pages `fetchProducts` returns for
1, 2, ..., `totalPages`, concatenated in that order, are `L`; every page from 1 to
`totalPages` is non-empty and every page beyond `totalPages` is empty. -/
theorem C27_pages_partition (lower : String → String)
    (records : List Product) (filters : Filters) (search : String) :
    (List.range (mathCeilDiv ((queryProducts lower filters records).length : Int) 20).toNat).flatMap
        (fun i => returnedPage lower records filters search ((i : Int) + 1)) =
      queryProducts lower filters records ∧
    (∀ p : Int, 1 ≤ p → p ≤ mathCeilDiv ((queryProducts lower filters records).length : Int) 20 →
      returnedPage lower records filters search p ≠ []) ∧
    (∀ p : Int, mathCeilDiv ((queryProducts lower filters records).length : Int) 20 < p →
      returnedPage lower records filters search p = []) := by
  rw [mathCeilDiv_twenty]
  have hdiv : (queryProducts lower filters records).length ≤
      20 * (((queryProducts lower filters records).length + 19) / 20) := by omega
  have hdiv2 : 20 * (((queryProducts lower filters records).length + 19) / 20) <
      (queryProducts lower filters records).length + 20 := by omega
  refine ⟨?_, ?_, ?_⟩
  · rw [Int.toNat_ofNat]
    exact pages_concat records filters search _ hdiv
  · intro p hp1 hp2
    rw [returnedPage_eq _ _ _ _ hp1]
    intro hempty
    have hlen := congrArg List.length hempty
    rw [List.length_take, List.length_drop] at hlen
    simp only [List.length_nil] at hlen
    omega
  · intro p hp
    have hp1 : 1 ≤ p := by omega
    rw [returnedPage_eq _ _ _ _ hp1, ← List.length_eq_zero, List.length_take, List.length_drop]
    omega

/-- C27 witness: 45 records make 3 pages; page 3 is non-empty and page 4 is empty. -/
theorem C27_pages_partition_witness :
    ((1 ≤ (3 : Int) ∧
        (3 : Int) ≤ mathCeilDiv ((queryProducts asciiToLowerCase noFilters fortyFiveRecords).length : Int) 20) ∧
      returnedPage asciiToLowerCase fortyFiveRecords noFilters "" 3 ≠ []) ∧
    (mathCeilDiv ((queryProducts asciiToLowerCase noFilters fortyFiveRecords).length : Int) 20 < (4 : Int) ∧
      returnedPage asciiToLowerCase fortyFiveRecords noFilters "" 4 = []) :=
  ⟨⟨⟨by decide, by rw [fortyFive_pages]⟩,
     (C27_pages_partition asciiToLowerCase fortyFiveRecords noFilters "").2.1 3 (by decide)
       (by rw [fortyFive_pages])⟩,
   ⟨by rw [fortyFive_pages]; decide,
     (C27_pages_partition asciiToLowerCase fortyFiveRecords noFilters "").2.2 4
       (by rw [fortyFive_pages]; decide)⟩⟩

/-- C28: `CartItem.handleQuantityChange` dispatches `updateQuantity` when
`1 ≤ newQuantity ≤ item.stock` and nothing otherwise; and in a cart reached from the
initial state in which every line satisfies `1 ≤ quantity ≤ stock`, a change
requested through the handler of one of its lines leaves every line satisfying
`1 ≤ quantity ≤ stock`. -/
theorem C28_handler_keeps_bounds (actions : List CartAction) (item : CartItem)
    (newQuantity : Int) :
    (1 ≤ newQuantity ∧ newQuantity ≤ item.stock →
      handleQuantityChange item newQuantity (runCart actions) =
        updateQuantity (runCart actions) item.id newQuantity) ∧
    (¬ (1 ≤ newQuantity ∧ newQuantity ≤ item.stock) →
      handleQuantityChange item newQuantity (runCart actions) = runCart actions) ∧
    (item ∈ (runCart actions).items →
      (∀ i ∈ (runCart actions).items, 1 ≤ i.quantity ∧ i.quantity ≤ i.stock) →
      ∀ i ∈ (handleQuantityChange item newQuantity (runCart actions)).items,
        1 ≤ i.quantity ∧ i.quantity ≤ i.stock) := by
  refine ⟨?_, ?_, ?_⟩
  · intro h
    unfold handleQuantityChange
    rw [if_pos (by omega)]
  · intro h
    unfold handleQuantityChange
    rw [if_neg (by omega)]
  · intro hmem hall i hi
    unfold handleQuantityChange at hi
    split at hi
    · rename_i hguard
      unfold updateQuantity at hi
      split at hi
      · rcases mem_modifyFirst_match _ _ _ _ hi with h1 | ⟨y, hy, hpy, hiy⟩
        · exact hall i h1
        · have hyid : y.id = item.id := by simpa using hpy
          have hyitem : y = item :=
            List.inj_on_of_nodup_map (uniqueIds_runCart actions) hy hmem hyid
          subst hiy
          subst hyitem
          exact ⟨by show 1 ≤ newQuantity; omega, by show newQuantity ≤ y.stock; omega⟩
      · exact hall i hi
    · exact hall i hi

/-- C28 witness: the lamp (stock 1) added once; its handler asked for quantity 2
dispatches nothing, asked for quantity 1 dispatches `updateQuantity`, and the cart
keeps every line within `1 ≤ quantity ≤ stock`. -/
theorem C28_handler_keeps_bounds_witness :
    (¬ (1 ≤ (2 : Int) ∧ (2 : Int) ≤ lampLine.stock) ∧
      handleQuantityChange lampLine 2 (runCart [.addToCart lastLamp]) =
        runCart [.addToCart lastLamp]) ∧
    ((1 ≤ (1 : Int) ∧ (1 : Int) ≤ lampLine.stock) ∧
      handleQuantityChange lampLine 1 (runCart [.addToCart lastLamp]) =
        updateQuantity (runCart [.addToCart lastLamp]) lampLine.id 1) ∧
    ((lampLine ∈ (runCart [.addToCart lastLamp]).items ∧
        ∀ i ∈ (runCart [.addToCart lastLamp]).items, 1 ≤ i.quantity ∧ i.quantity ≤ i.stock) ∧
      ∀ i ∈ (handleQuantityChange lampLine 1 (runCart [.addToCart lastLamp])).items,
        1 ≤ i.quantity ∧ i.quantity ≤ i.stock) :=
  ⟨⟨by decide, (C28_handler_keeps_bounds [.addToCart lastLamp] lampLine 2).2.1 (by decide)⟩,
   ⟨by decide, (C28_handler_keeps_bounds [.addToCart lastLamp] lampLine 1).1 (by decide)⟩,
   ⟨⟨by rw [lampOnce_items]; exact List.mem_singleton.mpr rfl,
      by rw [lampOnce_items]; decide⟩,
     (C28_handler_keeps_bounds [.addToCart lastLamp] lampLine 1).2.2
       (by rw [lampOnce_items]; exact List.mem_singleton.mpr rfl)
       (by rw [lampOnce_items]; decide)⟩⟩

/-- C29: from every query state the 'Clear All' handler, which dispatches
`clearFilters`, then `setPriceRange([0, 200])`, then `setCurrentPage(1)`, leaves
search term '', category '', sort key 'relevance', price range `[0, 200]` and
page 1: the filter fields of the initial state. -/
theorem C29_clear_all_restores_defaults (state : ProductsState) :
    handleClearAllFilters state =
      setCurrentPage (setPriceRange (clearFilters state) (0, 200)) 1 ∧
    (handleClearAllFilters state).searchTerm = "" ∧
    (handleClearAllFilters state).selectedCategory = "" ∧
    (handleClearAllFilters state).sortBy = "relevance" ∧
    (handleClearAllFilters state).priceRange = (0, 200) ∧
    (handleClearAllFilters state).currentPage = 1 ∧
    (handleClearAllFilters state).searchTerm = productsInitialState.searchTerm ∧
    (handleClearAllFilters state).selectedCategory = productsInitialState.selectedCategory ∧
    (handleClearAllFilters state).sortBy = productsInitialState.sortBy ∧
    (handleClearAllFilters state).priceRange = productsInitialState.priceRange ∧
    (handleClearAllFilters state).currentPage = productsInitialState.currentPage :=
  ⟨rfl, rfl, rfl, rfl, rfl, rfl, rfl, rfl, rfl, rfl, rfl⟩

/-- C30: for `totalPages ≥ 2` and `1 ≤ currentPage ≤ totalPages`, the list
`getPageNumbers` returns starts with page 1 and ends with page `totalPages`; its
page numbers are strictly increasing and include `currentPage` and every page of
`[1, totalPages]` within 2 of it; and the list is its page numbers with a `'...'`
marker between two consecutive ones exactly when they differ by more than 1. -/
theorem C30_page_numbers (currentPage totalPages : Int) (hT : 2 ≤ totalPages)
    (hc1 : 1 ≤ currentPage) (hc2 : currentPage ≤ totalPages) :
    (getPageNumbers currentPage totalPages).head? = some (.page 1) ∧
    (getPageNumbers currentPage totalPages).getLast? = some (.page totalPages) ∧
    (numericEntries (getPageNumbers currentPage totalPages)).Pairwise (· < ·) ∧
    currentPage ∈ numericEntries (getPageNumbers currentPage totalPages) ∧
    (∀ p : Int, 1 ≤ p → p ≤ totalPages → currentPage - 2 ≤ p → p ≤ currentPage + 2 →
      p ∈ numericEntries (getPageNumbers currentPage totalPages)) ∧
    getPageNumbers currentPage totalPages =
      withGaps (numericEntries (getPageNumbers currentPage totalPages)) := by
  obtain ⟨lo, n, hlo, hhi, h2, hle, hn0, hshape⟩ :=
    getPageNumbers_shape currentPage totalPages hT hc1 hc2
  have hnums := numericEntries_shape lo totalPages n (lo > 2)
    (lo + (n : Int) - 1 < totalPages - 1)
  rw [← hshape] at hnums
  have hwindow : ∀ p : Int, 1 ≤ p → p ≤ totalPages → currentPage - 2 ≤ p →
      p ≤ currentPage + 2 → p ∈ numericEntries (getPageNumbers currentPage totalPages) := by
    intro p hp1 hp2 hp3 hp4
    rw [hnums]
    simp only [List.mem_cons, List.mem_append, mem_intsFrom, List.mem_singleton, List.not_mem_nil,
      or_false]
    omega
  refine ⟨?_, ?_, ?_, ?_, hwindow, ?_⟩
  · rw [hshape]; rfl
  · rw [hshape]
    exact getLast?_shape _ _ _ _ _
  · rw [hnums]
    simp only [List.pairwise_cons, List.pairwise_append, List.mem_append, mem_intsFrom,
      List.mem_singleton]
    refine ⟨?_, intsFrom_increasing n lo, ?_, ?_⟩
    · intro p hp; omega
    · simp
    · intro a ha b hb; omega
  · exact hwindow currentPage hc1 hc2 (by omega) (by omega)
  · rw [hnums, withGaps_shape lo totalPages n h2 (fun h => ⟨hn0 h, by have := hn0 h; subst h; omega⟩)]
    exact hshape

/-- C30 witness: page 5 of 10 gives 1, '...', 3, 4, 5, 6, 7, '...', 10. -/
theorem C30_page_numbers_witness :
    ((2 : Int) ≤ 10 ∧ (1 : Int) ≤ 5 ∧ (5 : Int) ≤ 10) ∧
    getPageNumbers 5 10 =
      [.page 1, .dots, .page 3, .page 4, .page 5, .page 6, .page 7, .dots, .page 10] ∧
    getPageNumbers 5 10 = withGaps (numericEntries (getPageNumbers 5 10)) ∧
    (numericEntries (getPageNumbers 5 10)).Pairwise (· < ·) :=
  ⟨by decide, by decide,
    (C30_page_numbers 5 10 (by decide) (by decide) (by decide)).2.2.2.2.2,
    (C30_page_numbers 5 10 (by decide) (by decide) (by decide)).2.2.1⟩

end ShoppyGlobe
